import Mathlib

/-!
Verification development for the stream_zipper repository: a streaming
decompressor for ZIP and GZIP archives.  The definitions below are a shallow
embedding of the Rust sources (src/zip.rs, src/gzip.rs, src/deflate.rs,
src/input_helper.rs, src/zip/headers.rs, src/zip/datetime.rs,
src/gzip/headers.rs).  Byte sequences are modelled as List Nat, machine
integers as Nat with explicit modular reductions where the code relies on
wrap-around, and the nom parser results as a four-valued outcome type
mirroring Ok / Incomplete / Err::Error / Err::Failure.
-/

set_option maxRecDepth 10000

namespace StreamZipper

/-- Result of a nom-style parser: success with remaining input, a request for
more input, a recoverable error, or an unrecoverable failure. -/
inductive NRes (ε : Type) (α : Type) where
  | ok (rest : List Nat) (val : α)
  | incomplete
  | err (e : ε)
  | fail (e : ε)
  deriving Repr, DecidableEq

/-- Streaming little-endian u8: one byte or Incomplete. -/
def le_u8 {ε : Type} (i : List Nat) : NRes ε Nat :=
  match i with
  | b :: r => .ok r b
  | [] => .incomplete

/-- Streaming little-endian u16. -/
def le_u16 {ε : Type} (i : List Nat) : NRes ε Nat :=
  match i with
  | b0 :: b1 :: r => .ok r (b0 + 256 * b1)
  | _ => .incomplete

/-- Streaming little-endian u32. -/
def le_u32 {ε : Type} (i : List Nat) : NRes ε Nat :=
  match i with
  | b0 :: b1 :: b2 :: b3 :: r => .ok r (b0 + 256 * (b1 + 256 * (b2 + 256 * b3)))
  | _ => .incomplete

/-- Streaming little-endian u64. -/
def le_u64 {ε : Type} (i : List Nat) : NRes ε Nat :=
  match i with
  | b0 :: b1 :: b2 :: b3 :: b4 :: b5 :: b6 :: b7 :: r =>
      .ok r (b0 + 256 * (b1 + 256 * (b2 + 256 * (b3 + 256 * (b4 + 256 * (b5 + 256 * (b6 + 256 * b7)))))))
  | _ => .incomplete

/-- Complete-mode little-endian u16 (nom number::complete::le_u16): a short
input is a recoverable error, never Incomplete. -/
def complete_le_u16 {ε : Type} (e : ε) (i : List Nat) : NRes ε Nat :=
  match i with
  | b0 :: b1 :: r => .ok r (b0 + 256 * b1)
  | _ => .err e

/-- Streaming tag parser (nom bytes::streaming::tag): compares the available
prefix; a full match consumes the tag, a matching short input is Incomplete,
a mismatch is a recoverable error. -/
def tagP {ε : Type} (e : ε) : List Nat → List Nat → NRes ε Unit
  | [], i => .ok i ()
  | _ :: _, [] => .incomplete
  | a :: t, b :: i => if a = b then tagP e t i else .err e

/-- Streaming take parser: n bytes or Incomplete. -/
def takeP {ε : Type} (n : Nat) (i : List Nat) : NRes ε (List Nat) :=
  if n ≤ i.length then .ok (i.drop n) (i.take n) else .incomplete

/- ### MS-DOS date and time (src/zip/datetime.rs) -/

/-- Days in month for a non-leap year (datetime.rs DAYS_IN_MONTH). -/
def DAYS_IN_MONTH : List Nat := [31, 28, 31, 30, 31, 30, 31, 31, 30, 31, 30, 31]

/-- Accumulated days in a year at month granularity (datetime.rs DAY_OF_YEAR). -/
def DAY_OF_YEAR : List Nat := [0, 31, 59, 90, 120, 151, 181, 212, 243, 273, 304, 334]

/-- Port of datetime.rs days_since_msdos_epoch: full days since
1980-01-01, or none for out-of-range dates.  The local bindings of the Rust
code (is_leap_day, corrections) are inlined into the conditions. -/
def days_since_msdos_epoch (msdos_year month day : Nat) : Option Nat :=
  if 128 ≤ msdos_year then none
  else if month = 0 ∨ 12 < month then none
  else if day = 0 then none
  else if (1980 + msdos_year) % 4 = 0 ∧ month - 1 = 1 ∧ day - 1 = 28 ∧ 1980 + msdos_year = 2100 then
    none
  else if DAYS_IN_MONTH.getD (month - 1) 0
      + (if (1980 + msdos_year) % 4 = 0 ∧ month - 1 = 1 ∧ day - 1 = 28 then 1 else 0)
      ≤ day - 1 then none
  else
    some (msdos_year * 365 + DAY_OF_YEAR.getD (month - 1) 0 + (day - 1)
      + (msdos_year / 4
         + (if 0 < (1980 + msdos_year) % 4 ∨ 1 < month - 1 then 1 else 0)
         - (if 2100 < 1980 + msdos_year
              ∨ (1980 + msdos_year = 2100 ∧ (0 < (1980 + msdos_year) % 4 ∨ 1 < month - 1))
            then 1 else 0)))

/-- Port of datetime.rs seconds_since_midnight. -/
def seconds_since_midnight (hours minutes seconds : Nat) : Option Nat :=
  if 24 ≤ hours then none
  else if 60 ≤ minutes then none
  else if 60 ≤ seconds then none
  else some (seconds + (minutes + hours * 60) * 60)

/-- Port of datetime.rs parse_msdos_time_bits (time word field extraction). -/
def parse_msdos_time_bits (i : Nat) : Nat × Nat × Nat :=
  (i / 2048 % 32, i / 32 % 64, i % 32 * 2)

/-- Port of datetime.rs parse_msdos_date_bits (date word field extraction). -/
def parse_msdos_date_bits (i : Nat) : Nat × Nat × Nat :=
  (i / 512 % 128, i / 32 % 16, i % 32)

/-- Spec-side leap-aware month length: year 1980+y is a leap year iff
y mod 4 = 0, except 2100 (y = 120) which is not. -/
def days_in_month_leap_aware (y m : Nat) : Nat :=
  if m = 2 ∧ y % 4 = 0 ∧ y ≠ 120 then 29 else DAYS_IN_MONTH.getD (m - 1) 0

/-- Spec-side formula for the ordinal of a date counting 1980-01-01 as day 0:
y*365 + DAY_OF_YEAR[m-1] + (d-1) + floor(y/4) + (1 if past the Feb-29 of the
current 4-year cycle else 0) - (1 if past the skipped 2100 leap day else 0). -/
def msdos_ordinal_spec (y m d : Nat) : Nat :=
  y * 365 + DAY_OF_YEAR.getD (m - 1) 0 + (d - 1) + y / 4
    + (if 0 < y % 4 ∨ 2 < m then 1 else 0)
    - (if 2100 < 1980 + y ∨ (1980 + y = 2100 ∧ (0 < y % 4 ∨ 2 < m)) then 1 else 0)

/-- Spec-side validity of an MS-DOS date triple. -/
def msdos_date_in_range (y m d : Nat) : Prop :=
  y < 128 ∧ 1 ≤ m ∧ m ≤ 12 ∧ 1 ≤ d ∧ d ≤ days_in_month_leap_aware y m

instance (y m d : Nat) : Decidable (msdos_date_in_range y m d) := by
  unfold msdos_date_in_range; infer_instance


/- ### ZIP error type (src/zip.rs) -/

/-- Port of zip.rs ZipError (the NomError payload is collapsed to one
constructor; the embedding never inspects the nom ErrorKind). -/
inductive ZipError where
  | invalidDateOrTime
  | invalidVersionMadeBy
  | invalidCompressionMethod
  | invalidHeaderId
  | notLocalFileHeader
  | invalidLocalFileHeader
  | invalidDeflateStream
  | invalidDataDescriptor
  | notCentralDirHeader
  | invalidCentralDirHeader
  | nomError
  | otherError
  deriving Repr, DecidableEq

/-- Port of gzip.rs GZipError. -/
inductive GZipError where
  | invalidMemberHeader
  | invalidDeflateStream
  | invalidFooter
  deriving Repr, DecidableEq

/-- Port of datetime.rs parse_msdos_datetime: reads the time and date words,
checks ranges and returns the timestamp as seconds since the UNIX epoch
(UNIX_EPOCH + 3652 days + epoch_days days + seconds). -/
def parse_msdos_datetime (i : List Nat) : NRes ZipError Nat :=
  match le_u16 (ε := ZipError) i with
  | .ok i1 msdos_time =>
    match le_u16 (ε := ZipError) i1 with
    | .ok i2 msdos_date =>
      match parse_msdos_time_bits msdos_time, parse_msdos_date_bits msdos_date with
      | (hours, minutes, seconds), (years, months, days) =>
        match seconds_since_midnight hours minutes seconds with
        | none => .fail .invalidDateOrTime
        | some secs =>
          match days_since_msdos_epoch years months days with
          | none => .fail .invalidDateOrTime
          | some epoch_days => .ok i2 (3652 * 86400 + epoch_days * 86400 + secs)
    | .incomplete => .incomplete
    | .err _ => .err .invalidDateOrTime
    | .fail _ => .fail .invalidDateOrTime
  | .incomplete => .incomplete
  | .err _ => .err .invalidDateOrTime
  | .fail _ => .fail .invalidDateOrTime

/- ### ZIP header parsers (src/zip/headers.rs) -/

/-- Signature of a ZIP local file header. -/
def LOCAL_FILE_HEADER_TAG : List Nat := [0x50, 0x4b, 0x03, 0x04]

/-- Signature of a ZIP data descriptor. -/
def DATA_DESCRIPTOR_TAG : List Nat := [0x50, 0x4b, 0x07, 0x08]

/-- Signature of a ZIP central directory header. -/
def CENTRAL_DIR_HEADER_TAG : List Nat := [0x50, 0x4b, 0x01, 0x02]

/-- Port of headers.rs DeflateMode. -/
inductive DeflateMode where
  | normal
  | max
  | fast
  | superFast
  deriving Repr, DecidableEq

/-- Port of headers.rs CompressionMethod. -/
inductive CompressionMethod where
  | stored
  | shrunk
  | reducedX1
  | reducedX2
  | reducedX3
  | reducedX4
  | imploded
  | reservedTokenized
  | deflated
  | enhancedDeflated
  | pkWareDCLImploded
  | reserved2
  | bzip2
  | reserved3
  | lzma
  | reserved4
  | reserved5
  | reserved6
  | ibmTerse
  | ibmLz77
  | wavPack
  | ppmdVer1Rev1
  deriving Repr, DecidableEq

/-- Port of headers.rs parse_compression_method: a streaming u16 whose value
must be one of the 22 known codes; anything else is an unrecoverable
failure with InvalidCompressionMethod. -/
def parse_compression_method (i : List Nat) : NRes ZipError CompressionMethod :=
  match le_u16 (ε := ZipError) i with
  | .ok rest t =>
    match t with
    | 0 => .ok rest .stored
    | 1 => .ok rest .shrunk
    | 2 => .ok rest .reducedX1
    | 3 => .ok rest .reducedX2
    | 4 => .ok rest .reducedX3
    | 5 => .ok rest .reducedX4
    | 6 => .ok rest .imploded
    | 7 => .ok rest .reservedTokenized
    | 8 => .ok rest .deflated
    | 9 => .ok rest .enhancedDeflated
    | 10 => .ok rest .pkWareDCLImploded
    | 11 => .ok rest .reserved2
    | 12 => .ok rest .bzip2
    | 13 => .ok rest .reserved3
    | 14 => .ok rest .lzma
    | 15 => .ok rest .reserved4
    | 16 => .ok rest .reserved5
    | 17 => .ok rest .reserved6
    | 18 => .ok rest .ibmTerse
    | 19 => .ok rest .ibmLz77
    | 97 => .ok rest .wavPack
    | 98 => .ok rest .ppmdVer1Rev1
    | _ => .fail .invalidCompressionMethod
  | .incomplete => .incomplete
  | .err _ => .err .invalidCompressionMethod
  | .fail _ => .fail .invalidCompressionMethod

/-- Port of headers.rs HeaderId: the 42 extra-field ids the parser knows. -/
inductive HeaderId where
  | zip64Extended
  | avInfo
  | reservedExtLangEncData
  | os2
  | ntfs
  | openVms
  | unix
  | reservedFileStreamForkDesc
  | patchDesc
  | pkcs7StoreForX509Certs
  | x509CertIDAndSignatureForFile
  | x509CertIdForCentralDir
  | strongEncHeader
  | recordManagementControls
  | pkcs7EncRecipientCertificateList
  | ibmS390As400AttributesUncompressed
  | reservedIBMS390As400AttributesCompressed
  | poszip4690
  | macintosh
  | zipItMacintosh
  | zipItMacintosh135Plus
  | zipItMacintosh135Plus2
  | infoZipMacintosh
  | acornSparkFs
  | windowsNtSecurityDescriptor
  | vmCms
  | mvs
  | fwkcsMd5
  | os2Acl
  | infoZipOpenVms
  | xceedOrigLoc
  | aosVs
  | extendedTimestamp
  | xceedUnicodeXtraField
  | infoZipUnixOriginal
  | infoZipUnicodeComment
  | beOsBeBox
  | asiUnix
  | infoZipUnixNew
  | microsoftOpenPackagingGrowthHint
  | smsQDos
  deriving Repr, DecidableEq

/-- Port of headers.rs parse_header_id: a complete-mode u16 (so that running
out of bytes inside many0 is a recoverable stop, not Incomplete) whose value
must be a known id; an unknown id is an unrecoverable failure (utils.rs fail
wraps the error in nom Err::Failure) with InvalidHeaderId. -/
def parse_header_id (i : List Nat) : NRes ZipError HeaderId :=
  match complete_le_u16 ZipError.invalidHeaderId i with
  | .ok rest t =>
    match t with
    | 0x0001 => .ok rest .zip64Extended
    | 0x0007 => .ok rest .avInfo
    | 0x0008 => .ok rest .reservedExtLangEncData
    | 0x0009 => .ok rest .os2
    | 0x000a => .ok rest .ntfs
    | 0x000c => .ok rest .openVms
    | 0x000d => .ok rest .unix
    | 0x000e => .ok rest .reservedFileStreamForkDesc
    | 0x000f => .ok rest .patchDesc
    | 0x0014 => .ok rest .pkcs7StoreForX509Certs
    | 0x0015 => .ok rest .x509CertIDAndSignatureForFile
    | 0x0016 => .ok rest .x509CertIdForCentralDir
    | 0x0017 => .ok rest .strongEncHeader
    | 0x0018 => .ok rest .recordManagementControls
    | 0x0019 => .ok rest .pkcs7EncRecipientCertificateList
    | 0x0065 => .ok rest .ibmS390As400AttributesUncompressed
    | 0x0066 => .ok rest .reservedIBMS390As400AttributesCompressed
    | 0x4690 => .ok rest .poszip4690
    | 0x07c8 => .ok rest .macintosh
    | 0x2605 => .ok rest .zipItMacintosh
    | 0x2705 => .ok rest .zipItMacintosh135Plus
    | 0x2805 => .ok rest .zipItMacintosh135Plus2
    | 0x334d => .ok rest .infoZipMacintosh
    | 0x4341 => .ok rest .acornSparkFs
    | 0x4453 => .ok rest .windowsNtSecurityDescriptor
    | 0x4704 => .ok rest .vmCms
    | 0x470f => .ok rest .mvs
    | 0x4b46 => .ok rest .fwkcsMd5
    | 0x4c41 => .ok rest .os2Acl
    | 0x4d49 => .ok rest .infoZipOpenVms
    | 0x4f4c => .ok rest .xceedOrigLoc
    | 0x5356 => .ok rest .aosVs
    | 0x5455 => .ok rest .extendedTimestamp
    | 0x554e => .ok rest .xceedUnicodeXtraField
    | 0x5855 => .ok rest .infoZipUnixOriginal
    | 0x6375 => .ok rest .infoZipUnicodeComment
    | 0x6542 => .ok rest .beOsBeBox
    | 0x756e => .ok rest .asiUnix
    | 0x7855 => .ok rest .infoZipUnixNew
    | 0xa220 => .ok rest .microsoftOpenPackagingGrowthHint
    | 0xfd4a => .ok rest .smsQDos
    | _ => .fail .invalidHeaderId
  | .incomplete => .incomplete
  | .err e => .err e
  | .fail e => .fail e

/-- Port of headers.rs parse_one_extra_field: header id, complete-mode u16
length, then that many bytes (streaming take). -/
def parse_one_extra_field (i : List Nat) : NRes ZipError (HeaderId × List Nat) :=
  match parse_header_id i with
  | .ok i1 tag =>
    match complete_le_u16 ZipError.nomError i1 with
    | .ok i2 len =>
      match takeP (ε := ZipError) len i2 with
      | .ok i3 contents => .ok i3 (tag, contents)
      | .incomplete => .incomplete
      | .err e => .err e
      | .fail e => .fail e
    | .incomplete => .incomplete
    | .err e => .err e
    | .fail e => .fail e
  | .incomplete => .incomplete
  | .err e => .err e
  | .fail e => .fail e

/-- Port of nom many0: repeat the parser until it stops with a recoverable
error; Incomplete and Failure propagate; a success that consumes nothing is
an error.  The fuel argument only bounds the recursion and is always given
as at least input length + 1. -/
def many0 {α : Type} (p : List Nat → NRes ZipError α) :
    Nat → List Nat → NRes ZipError (List α)
  | 0, _ => .err .nomError
  | fuel + 1, i =>
    match p i with
    | .err _ => .ok i []
    | .incomplete => .incomplete
    | .fail e => .fail e
    | .ok rest v =>
      if rest.length < i.length then
        match many0 p fuel rest with
        | .ok rest2 vs => .ok rest2 (v :: vs)
        | .incomplete => .incomplete
        | .err e => .err e
        | .fail e => .fail e
      else .err .nomError

/-- Port of headers.rs parse_extra_fields: nom length_value over a declared
byte count; the sub-parser runs on exactly len bytes, its Incomplete is
converted to a recoverable error, and exactly len bytes are consumed on
success no matter how much of the window the sub-parser used. -/
def parse_extra_fields (input : List Nat) (len : Nat) :
    NRes ZipError (List (HeaderId × List Nat)) :=
  if input.length < len then .incomplete
  else
    let window := input.take len
    match many0 parse_one_extra_field (window.length + 1) window with
    | .ok _ vs => .ok (input.drop len) vs
    | .incomplete => .err .nomError
    | .err e => .err e
    | .fail e => .fail e

/-- Port of headers.rs parse_bitflags: nom bits parser over two bytes; in the
first byte, bit 3 is deferred sizes, bits 2-1 the deflate mode, bit 0
encrypted.  Returns (encrypted, deflate_mode, deferred_sizes). -/
def parse_bitflags (input : List Nat) : NRes ZipError (Bool × DeflateMode × Bool) :=
  match input with
  | b0 :: _ :: rest =>
    let deferred : Bool := b0 / 8 % 2 = 1
    let mode := match b0 / 2 % 4 with
      | 0 => DeflateMode.normal
      | 1 => DeflateMode.max
      | 2 => DeflateMode.fast
      | _ => DeflateMode.superFast
    let encrypted : Bool := b0 % 2 = 1
    .ok rest (encrypted, mode, deferred)
  | _ => .incomplete

/-- Port of headers.rs LocalFileHeader (last_mod held as seconds since the
UNIX epoch). -/
structure LocalFileHeader where
  version_needed : Nat
  encrypted : Bool
  deflate_mode : DeflateMode
  deferred_sizes : Bool
  compression_method : CompressionMethod
  last_mod : Nat
  crc_32 : Nat
  compressed_size : Nat
  uncompressed_size : Nat
  filename : List Nat
  is_zip64 : Bool
  extra_fields : List (HeaderId × List Nat)
  deriving Repr, DecidableEq

/-- Map a NomError payload to InvalidLocalFileHeader, keep other payloads
(the closure at headers.rs line 305). -/
def lfhMapErr (e : ZipError) : ZipError :=
  match e with
  | .nomError => .invalidLocalFileHeader
  | e => e

/-- Port of headers.rs LocalFileHeader::parse. -/
def LocalFileHeader.parse (i : List Nat) : NRes ZipError LocalFileHeader :=
  match tagP ZipError.notLocalFileHeader LOCAL_FILE_HEADER_TAG i with
  | .incomplete => .incomplete
  | .err _ => .err .notLocalFileHeader
  | .fail _ => .fail .notLocalFileHeader
  | .ok i0 _ =>
    match le_u16 (ε := ZipError) i0 with
    | .incomplete => .incomplete
    | .err e => .err (lfhMapErr e)
    | .fail e => .fail (lfhMapErr e)
    | .ok i1 version_needed =>
      match parse_bitflags i1 with
      | .incomplete => .incomplete
      | .err e => .err (lfhMapErr e)
      | .fail e => .fail (lfhMapErr e)
      | .ok i2 bit_flags =>
        match parse_compression_method i2 with
        | .incomplete => .incomplete
        | .err e => .err (lfhMapErr e)
        | .fail e => .fail (lfhMapErr e)
        | .ok i3 compression_method =>
          match parse_msdos_datetime i3 with
          | .incomplete => .incomplete
          | .err e => .err (lfhMapErr e)
          | .fail e => .fail (lfhMapErr e)
          | .ok i4 last_mod =>
            match le_u32 (ε := ZipError) i4 with
            | .incomplete => .incomplete
            | .err e => .err (lfhMapErr e)
            | .fail e => .fail (lfhMapErr e)
            | .ok i5 crc_32 =>
              match le_u32 (ε := ZipError) i5 with
              | .incomplete => .incomplete
              | .err e => .err (lfhMapErr e)
              | .fail e => .fail (lfhMapErr e)
              | .ok i6 compressed_size =>
                match le_u32 (ε := ZipError) i6 with
                | .incomplete => .incomplete
                | .err e => .err (lfhMapErr e)
                | .fail e => .fail (lfhMapErr e)
                | .ok i7 uncompressed_size =>
                  match le_u16 (ε := ZipError) i7 with
                  | .incomplete => .incomplete
                  | .err e => .err (lfhMapErr e)
                  | .fail e => .fail (lfhMapErr e)
                  | .ok i8 fname_len =>
                    match le_u16 (ε := ZipError) i8 with
                    | .incomplete => .incomplete
                    | .err e => .err (lfhMapErr e)
                    | .fail e => .fail (lfhMapErr e)
                    | .ok i9 extra_field_len =>
                      match takeP (ε := ZipError) fname_len i9 with
                      | .incomplete => .incomplete
                      | .err _ => .err .invalidLocalFileHeader
                      | .fail _ => .fail .invalidLocalFileHeader
                      | .ok i10 filename =>
                        match parse_extra_fields i10 extra_field_len with
                        | .incomplete => .incomplete
                        | .err _ => .err .invalidLocalFileHeader
                        | .fail _ => .fail .invalidLocalFileHeader
                        | .ok i11 extra_fields =>
                          .ok i11 {
                            version_needed := version_needed
                            encrypted := bit_flags.1
                            deflate_mode := bit_flags.2.1
                            deferred_sizes := bit_flags.2.2
                            compression_method := compression_method
                            last_mod := last_mod
                            crc_32 := crc_32
                            is_zip64 := compressed_size = 4294967295 ∨
                                        uncompressed_size = 4294967295
                            compressed_size := compressed_size
                            uncompressed_size := uncompressed_size
                            filename := filename
                            extra_fields := extra_fields }

/-- Port of headers.rs DataDescriptor (sizes as u64 values). -/
structure DataDescriptor where
  tag : Bool
  crc_32 : Nat
  uncompressed_size : Nat
  compressed_size : Nat
  deriving Repr, DecidableEq

/-- Decide whether an input begins with the full data descriptor signature
(nom opt(tag): a recoverable mismatch yields the no-tag branch, a matching
proper prefix of the signature is Incomplete). -/
def DataDescriptor.parseFields (tag wide : Bool) (i : List Nat) :
    NRes ZipError DataDescriptor :=
  match le_u32 (ε := ZipError) i with
    | .ok i1 crc_32 =>
      match (if wide then le_u64 (ε := ZipError) i1 else le_u32 (ε := ZipError) i1) with
      | .ok i2 compressed_size =>
        match (if wide then le_u64 (ε := ZipError) i2 else le_u32 (ε := ZipError) i2) with
        | .ok i3 uncompressed_size =>
          .ok i3 { tag := tag, crc_32 := crc_32,
                   uncompressed_size := uncompressed_size,
                   compressed_size := compressed_size }
        | .incomplete => .incomplete
        | .err e => .err e
        | .fail e => .fail e
      | .incomplete => .incomplete
      | .err e => .err e
      | .fail e => .fail e
    | .incomplete => .incomplete
    | .err e => .err e
    | .fail e => .fail e

/-- Shared body of DataDescriptor::parse_zip and parse_zip64: nom opt(tag)
(a recoverable mismatch yields the no-tag branch, a matching proper prefix of
the signature is Incomplete) followed by the size fields. -/
def DataDescriptor.parseCore (wide : Bool) (i : List Nat) : NRes ZipError DataDescriptor :=
  match tagP ZipError.nomError DATA_DESCRIPTOR_TAG i with
  | .incomplete => .incomplete
  | .fail e => .fail e
  | .ok i1 _ => DataDescriptor.parseFields true wide i1
  | .err _ => DataDescriptor.parseFields false wide i

/-- Port of headers.rs DataDescriptor::parse_zip (optional signature, 32-bit
sizes). -/
def DataDescriptor.parse_zip (i : List Nat) : NRes ZipError DataDescriptor :=
  DataDescriptor.parseCore false i

/-- Port of headers.rs DataDescriptor::parse_zip64 (optional signature,
64-bit sizes). -/
def DataDescriptor.parse_zip64 (i : List Nat) : NRes ZipError DataDescriptor :=
  DataDescriptor.parseCore true i


/-- Port of headers.rs VersionMadeBy. -/
inductive VersionMadeBy where
  | msDos
  | amiga
  | openVms
  | unix
  | vmCms
  | atariSt
  | os2Hpfs
  | macintosh
  | zSystem
  | cpm
  | windowsNtfs
  | mvs
  | vse
  | acornRisc
  | vFat
  | alternateMvs
  | beOs
  | tandem
  | os400
  | osXDarwin
  deriving Repr, DecidableEq

/-- Port of headers.rs parse_version_made_by: two u8s; the second must be a
known host code, otherwise an unrecoverable failure. -/
def parse_version_made_by (input : List Nat) : NRes ZipError (Nat × VersionMadeBy) :=
  match input with
  | zip_ver :: t :: rest =>
    match t with
    | 0 => .ok rest (zip_ver, .msDos)
    | 1 => .ok rest (zip_ver, .amiga)
    | 2 => .ok rest (zip_ver, .openVms)
    | 3 => .ok rest (zip_ver, .unix)
    | 4 => .ok rest (zip_ver, .vmCms)
    | 5 => .ok rest (zip_ver, .atariSt)
    | 6 => .ok rest (zip_ver, .os2Hpfs)
    | 7 => .ok rest (zip_ver, .macintosh)
    | 8 => .ok rest (zip_ver, .zSystem)
    | 9 => .ok rest (zip_ver, .cpm)
    | 10 => .ok rest (zip_ver, .windowsNtfs)
    | 11 => .ok rest (zip_ver, .mvs)
    | 12 => .ok rest (zip_ver, .vse)
    | 13 => .ok rest (zip_ver, .acornRisc)
    | 14 => .ok rest (zip_ver, .vFat)
    | 15 => .ok rest (zip_ver, .alternateMvs)
    | 16 => .ok rest (zip_ver, .beOs)
    | 17 => .ok rest (zip_ver, .tandem)
    | 18 => .ok rest (zip_ver, .os400)
    | 19 => .ok rest (zip_ver, .osXDarwin)
    | _ => .fail .invalidVersionMadeBy
  | _ => .incomplete

/-- Port of headers.rs CentralDirHeader. -/
structure CentralDirHeader where
  version_made_by : Nat × VersionMadeBy
  version_needed : Nat
  encrypted : Bool
  deflate_mode : DeflateMode
  deferred_sizes : Bool
  compression_method : CompressionMethod
  last_mod_time : Nat
  last_mod_date : Nat
  crc_32 : Nat
  compressed_size : Nat
  uncompressed_size : Nat
  disk_no_start : Nat
  int_file_attrib : Nat
  ext_file_attrib : Nat
  rel_offset_loc_header : Nat
  filename : List Nat
  extra_fields : List (HeaderId × List Nat)
  comment : List Nat
  deriving Repr, DecidableEq

/-- Port of headers.rs CentralDirHeader::parse. -/
def CentralDirHeader.parse (i : List Nat) : NRes ZipError CentralDirHeader :=
  match tagP ZipError.notCentralDirHeader CENTRAL_DIR_HEADER_TAG i with
  | .incomplete => .incomplete
  | .err _ => .err .notCentralDirHeader
  | .fail _ => .fail .notCentralDirHeader
  | .ok i0 _ =>
    match parse_version_made_by i0 with
    | .incomplete => .incomplete
    | .err e => .err e
    | .fail e => .fail e
    | .ok i1 version_made_by =>
      match le_u16 (ε := ZipError) i1 with
      | .incomplete => .incomplete
      | .err e => .err e
      | .fail e => .fail e
      | .ok i2 version_needed =>
        match parse_bitflags i2 with
        | .incomplete => .incomplete
        | .err e => .err e
        | .fail e => .fail e
        | .ok i3 bit_flags =>
          match parse_compression_method i3 with
          | .incomplete => .incomplete
          | .err e => .err e
          | .fail e => .fail e
          | .ok i4 compression_method =>
            match le_u16 (ε := ZipError) i4 with
            | .incomplete => .incomplete
            | .err e => .err e
            | .fail e => .fail e
            | .ok i5 last_mod_time =>
              match le_u16 (ε := ZipError) i5 with
              | .incomplete => .incomplete
              | .err e => .err e
              | .fail e => .fail e
              | .ok i6 last_mod_date =>
                match le_u32 (ε := ZipError) i6 with
                | .incomplete => .incomplete
                | .err e => .err e
                | .fail e => .fail e
                | .ok i7 crc_32 =>
                  match le_u32 (ε := ZipError) i7 with
                  | .incomplete => .incomplete
                  | .err e => .err e
                  | .fail e => .fail e
                  | .ok i8 compressed_size =>
                    match le_u32 (ε := ZipError) i8 with
                    | .incomplete => .incomplete
                    | .err e => .err e
                    | .fail e => .fail e
                    | .ok i9 uncompressed_size =>
                      match le_u16 (ε := ZipError) i9 with
                      | .incomplete => .incomplete
                      | .err e => .err e
                      | .fail e => .fail e
                      | .ok i10 fname_len =>
                        match le_u16 (ε := ZipError) i10 with
                        | .incomplete => .incomplete
                        | .err e => .err e
                        | .fail e => .fail e
                        | .ok i11 extra_field_len =>
                          match le_u16 (ε := ZipError) i11 with
                          | .incomplete => .incomplete
                          | .err e => .err e
                          | .fail e => .fail e
                          | .ok i12 fcomment_len =>
                            match le_u16 (ε := ZipError) i12 with
                            | .incomplete => .incomplete
                            | .err e => .err e
                            | .fail e => .fail e
                            | .ok i13 disk_no_start =>
                              match le_u16 (ε := ZipError) i13 with
                              | .incomplete => .incomplete
                              | .err e => .err e
                              | .fail e => .fail e
                              | .ok i14 int_file_attrib =>
                                match le_u32 (ε := ZipError) i14 with
                                | .incomplete => .incomplete
                                | .err e => .err e
                                | .fail e => .fail e
                                | .ok i15 ext_file_attrib =>
                                  match le_u32 (ε := ZipError) i15 with
                                  | .incomplete => .incomplete
                                  | .err e => .err e
                                  | .fail e => .fail e
                                  | .ok i16 rel_offset_loc_header =>
                                    match takeP (ε := ZipError) fname_len i16 with
                                    | .incomplete => .incomplete
                                    | .err e => .err e
                                    | .fail e => .fail e
                                    | .ok i17 filename =>
                                      match parse_extra_fields i17 extra_field_len with
                                      | .incomplete => .incomplete
                                      | .err e => .err e
                                      | .fail e => .fail e
                                      | .ok i18 extra_fields =>
                                        match takeP (ε := ZipError) fcomment_len i18 with
                                        | .incomplete => .incomplete
                                        | .err e => .err e
                                        | .fail e => .fail e
                                        | .ok i19 comment =>
                                          .ok i19 {
                                            version_made_by := version_made_by
                                            version_needed := version_needed
                                            encrypted := bit_flags.1
                                            deflate_mode := bit_flags.2.1
                                            deferred_sizes := bit_flags.2.2
                                            compression_method := compression_method
                                            last_mod_time := last_mod_time
                                            last_mod_date := last_mod_date
                                            crc_32 := crc_32
                                            compressed_size := compressed_size
                                            uncompressed_size := uncompressed_size
                                            disk_no_start := disk_no_start
                                            int_file_attrib := int_file_attrib
                                            ext_file_attrib := ext_file_attrib
                                            rel_offset_loc_header := rel_offset_loc_header
                                            filename := filename
                                            extra_fields := extra_fields
                                            comment := comment }

/- ### GZIP header parsers (src/gzip/headers.rs) -/

/-- Port of gzip/headers.rs MemberHeader. -/
structure MemberHeader where
  mtime : Nat
  os : Nat
  filename : Option (List Nat)
  fcomment : Option (List Nat)
  deriving Repr, DecidableEq

/-- Map the value of a parse result. -/
def NRes.map {ε α β : Type} (r : NRes ε α) (f : α → β) : NRes ε β :=
  match r with
  | .ok rest v => .ok rest (f v)
  | .incomplete => .incomplete
  | .err e => .err e
  | .fail e => .fail e

/-- Port of gzip/headers.rs zero_terminated: take_until the NUL byte (not
finding one is Incomplete in streaming mode), then consume the NUL. -/
def zero_terminated (i : List Nat) : NRes Unit (List Nat) :=
  if i.indexOf 0 < i.length then .ok (i.drop (i.indexOf 0 + 1)) (i.take (i.indexOf 0))
  else .incomplete

/-- Port of gzip/headers.rs extra_data: u16 length then that many bytes. -/
def extra_data (i : List Nat) : NRes Unit (List Nat) :=
  match le_u16 (ε := Unit) i with
  | .ok i1 len => takeP len i1
  | .incomplete => .incomplete
  | .err e => .err e
  | .fail e => .fail e

/-- Port of gzip/headers.rs parse_bitflags: one byte whose bits 4..0 are
comment, name, extra, crc, text; returns (text, crc, extra, name, comment). -/
def gzip_parse_bitflags (i : List Nat) :
    NRes Unit (Bool × Bool × Bool × Bool × Bool) :=
  match i with
  | b :: rest =>
    .ok rest (b % 2 = 1, b / 2 % 2 = 1, b / 4 % 2 = 1, b / 8 % 2 = 1, b / 16 % 2 = 1)
  | [] => .incomplete

/-- Port of gzip/headers.rs MemberHeader::parse. -/
def MemberHeader.parse (i : List Nat) : NRes Unit MemberHeader :=
  match tagP () [0x1f, 0x8b] i with
  | .incomplete => .incomplete
  | .err e => .err e
  | .fail e => .fail e
  | .ok i0 _ =>
    match tagP () [0x08] i0 with
    | .incomplete => .incomplete
    | .err e => .err e
    | .fail e => .fail e
    | .ok i1 _ =>
      match gzip_parse_bitflags i1 with
      | .incomplete => .incomplete
      | .err e => .err e
      | .fail e => .fail e
      | .ok i2 bit_flags =>
        match le_u32 (ε := Unit) i2 with
        | .incomplete => .incomplete
        | .err e => .err e
        | .fail e => .fail e
        | .ok i3 mtime =>
          match le_u8 (ε := Unit) i3 with
          | .incomplete => .incomplete
          | .err e => .err e
          | .fail e => .fail e
          | .ok i4 _xtra_flags =>
            match le_u8 (ε := Unit) i4 with
            | .incomplete => .incomplete
            | .err e => .err e
            | .fail e => .fail e
            | .ok i5 os =>
              match (if bit_flags.2.2.1 then
                       (extra_data i5).map some
                     else .ok i5 none) with
              | .incomplete => .incomplete
              | .err e => .err e
              | .fail e => .fail e
              | .ok i6 _extra =>
                match (if bit_flags.2.2.2.1 then
                         (zero_terminated i6).map some
                       else .ok i6 none) with
                | .incomplete => .incomplete
                | .err e => .err e
                | .fail e => .fail e
                | .ok i7 filename =>
                  match (if bit_flags.2.2.2.2 then
                           (zero_terminated i7).map some
                         else .ok i7 none) with
                  | .incomplete => .incomplete
                  | .err e => .err e
                  | .fail e => .fail e
                  | .ok i8 fcomment =>
                    match (if bit_flags.2.1 then
                             (le_u16 (ε := Unit) i8).map some
                           else .ok i8 none) with
                    | .incomplete => .incomplete
                    | .err e => .err e
                    | .fail e => .fail e
                    | .ok i9 _header_crc =>
                      .ok i9 { mtime := mtime, os := os,
                               filename := filename, fcomment := fcomment }

/-- Port of gzip/headers.rs parse_footer: two u32s (crc32, isize). -/
def gzip_parse_footer (i : List Nat) : NRes Unit (Nat × Nat) :=
  match le_u32 (ε := Unit) i with
  | .ok i1 crc32 =>
    match le_u32 (ε := Unit) i1 with
    | .ok i2 isize => .ok i2 (crc32, isize)
    | .incomplete => .incomplete
    | .err e => .err e
    | .fail e => .fail e
  | .incomplete => .incomplete
  | .err e => .err e
  | .fail e => .fail e


/- ### SplitInputBuffer (src/input_helper.rs) -/

/-- Port of input_helper.rs Input: a view with the caller buffer lifetime
(Long) or into the stitch buffer (Short). -/
inductive InputView where
  | long (bs : List Nat)
  | short (bs : List Nat)
  deriving Repr, DecidableEq

/-- Dereference a view to its bytes. -/
def InputView.data : InputView → List Nat
  | .long bs => bs
  | .short bs => bs

/-- Port of Input::assert_take_long: a Short view is a panic, modelled as
none. -/
def InputView.assert_take_long : InputView → Option (List Nat)
  | .long bs => some bs
  | .short _ => none

/-- Port of input_helper.rs InputHandler. -/
structure InputHandler where
  orig_stored : Nat
  input_consumed : Nat
  storage : List Nat
  orig_input : List Nat
  deriving Repr, DecidableEq

/-- Port of InputHandler::extend_input: copy the next up-to-80 not yet
processed input bytes into storage; report 0 when storage was empty before
the call (the parser has already seen the whole original input), else the
number of bytes copied. -/
def InputHandler.extend_input (ih : InputHandler) : Nat × InputHandler :=
  let input_stored_consumed := ih.storage.length - ih.orig_stored + ih.input_consumed
  let extension := (ih.orig_input.drop input_stored_consumed).take 80
  let was_empty := ih.storage.isEmpty
  ((if was_empty then 0 else extension.length),
   { ih with storage := ih.storage ++ extension })

/-- Port of InputHandler::take_storage: adopt the retained bytes of the
reader and, if there were any, immediately stitch up to 80 bytes of the new
input onto them. -/
def InputHandler.take_storage (reader_storage : List Nat) (orig_input : List Nat) :
    InputHandler :=
  let ih : InputHandler :=
    { orig_stored := reader_storage.length
      input_consumed := 0
      storage := reader_storage
      orig_input := orig_input }
  if 0 < ih.orig_stored then (ih.extend_input).2 else ih

/-- Port of InputHandler::get_unparsed. -/
def InputHandler.get_unparsed (ih : InputHandler) : InputView :=
  if 0 < ih.storage.length then .short ih.storage else .long ih.orig_input

/-- Port of InputHandler::consumed: for n = 0 a no-op returning the current
view; otherwise the debug assertion orig_stored < n must hold (none models
the assertion tripping), the consumed count grows by n - orig_stored, the
storage is cleared and the view returns to the Long tail. -/
def InputHandler.consumed (ih : InputHandler) (bytes : Nat) :
    Option (InputView × InputHandler) :=
  if bytes = 0 then
    if 0 < ih.storage.length then some (.short ih.storage, ih)
    else some (.long (ih.orig_input.drop ih.input_consumed), ih)
  else if ih.orig_stored < bytes then
    let ic := ih.input_consumed + (bytes - ih.orig_stored)
    some (.long (ih.orig_input.drop ic),
          { ih with input_consumed := ic, storage := [], orig_stored := 0 })
  else none

/-- Port of InputHandler::return_storage: the reader keeps the current
storage for the next call. -/
def InputHandler.return_storage (ih : InputHandler) : List Nat :=
  ih.storage

/- ### Inflater wrapper (src/deflate.rs) -/

/-- Port of miniz_oxide TINFLStatus as seen by deflate.rs: the three
non-fatal statuses, and one fatal bucket. -/
inductive TStatus where
  | done
  | needsMoreInput
  | hasMoreOutput
  | fatal
  deriving Repr, DecidableEq

/-- One decompression step of the external DEFLATE primitive: status, number
of input bytes consumed, bytes written at the output cursor, and the updated
opaque decompressor state. -/
structure DecompOut where
  status : TStatus
  in_consumed : Nat
  out : List Nat
  decomp : Nat
  deriving Repr, DecidableEq

/-- Port of deflate.rs InnerState.  The opaque DecompressorOxide work state
is abstracted to a Nat; the flags field is constant after construction and
omitted. -/
structure InnerState where
  output : List Nat
  out_pos : Nat
  last_out_pos : Nat
  decomp : Nat
  uncomp_size : Nat
  comp_size : Nat
  had_output : Bool
  deriving Repr, DecidableEq

/-- The external DEFLATE primitive of section 6.1: a function from the
current inflater state and input bytes to one decompression step. -/
def DStep : Type := InnerState → List Nat → DecompOut

/-- Well-formedness of one primitive step on a given state and input: it
cannot consume more bytes than offered nor write past the window end (the
cursor given to it runs from out_pos to the window end). -/
def DecompOut.wf (d : DecompOut) (st : InnerState) (input : List Nat) : Prop :=
  d.in_consumed ≤ input.length ∧ st.out_pos + d.out.length ≤ st.output.length

/-- Overwrite the bytes of w from position pos with bs. -/
def writeAt (w : List Nat) (pos : Nat) (bs : List Nat) : List Nat :=
  w.take pos ++ bs ++ w.drop (pos + bs.length)

/-- Port of InnerState::get_output: the window slice between last_out_pos and
out_pos, or the tail from last_out_pos in the wrap case. -/
def InnerState.get_output (st : InnerState) : List Nat :=
  if st.last_out_pos < st.out_pos then
    (st.output.drop st.last_out_pos).take (st.out_pos - st.last_out_pos)
  else st.output.drop st.last_out_pos

/-- Acknowledge a previously reported chunk: if had_output is set, advance
last_out_pos to out_pos (the first step of consume_input). -/
def InnerState.ack (st : InnerState) : InnerState :=
  if st.had_output then { st with had_output := false, last_out_pos := st.out_pos }
  else st

/-- Port of deflate.rs State. -/
inductive DefState where
  | hasOutput (unparsed_input : List Nat) (output : List Nat)
  | needsInput (unparsed_input : List Nat)
  | stop (unparsed_input : List Nat)
  deriving Repr, DecidableEq

/-- Result of consume_input: a state, or the fatal status; the updated
InnerState is returned in both cases (the Rust state is mutated in place
before the status is examined). -/
inductive ConsumeRes where
  | ok (s : DefState)
  | fatal
  deriving Repr, DecidableEq

/-- Port of deflate.rs consume_input, parameterised by the external DEFLATE
primitive. -/
def consume_input (dstep : DStep) (input : List Nat) (st0 : InnerState) :
    ConsumeRes × InnerState :=
  let st1 := st0.ack
  let d := dstep st1 input
  let st2 : InnerState :=
    { st1 with
      comp_size := st1.comp_size + d.in_consumed
      uncomp_size := st1.uncomp_size + d.out.length
      output := writeAt st1.output st1.out_pos d.out
      out_pos := st1.out_pos + d.out.length
      decomp := d.decomp }
  let unparsed_input := input.drop d.in_consumed
  let st3 := if st2.out_pos = st2.output.length then { st2 with out_pos := 0 } else st2
  match d.status with
  | .done =>
    if d.out.length = 0 then (.ok (.stop unparsed_input), st3)
    else
      let st4 := { st3 with had_output := true }
      (.ok (.hasOutput unparsed_input st4.get_output), st4)
  | .needsMoreInput => (.ok (.needsInput unparsed_input), st3)
  | .hasMoreOutput =>
    let st4 := { st3 with had_output := true }
    (.ok (.hasOutput unparsed_input st4.get_output), st4)
  | .fatal => (.fatal, st3)

/-- Port of miniz_oxide TINFL_LZ_DICT_SIZE. -/
def TINFL_LZ_DICT_SIZE : Nat := 32768

/-- Port of deflate.rs Stream::new / Stream::with(0,0): a fresh inflater
with a zeroed window of 32768 bytes. -/
def deflate_stream_new : InnerState :=
  { output := List.replicate TINFL_LZ_DICT_SIZE 0
    out_pos := 0
    last_out_pos := 0
    decomp := 0
    uncomp_size := 0
    comp_size := 0
    had_output := false }


/- ### ZipReader state machine (src/zip.rs) -/

/-- Port of zip.rs InternalState (struct variants flattened to fields). -/
inductive ZState where
  | init
  | headerParsed (header : LocalFileHeader)
  | inflated (header : LocalFileHeader) (comp_size uncomp_size : Nat)
  | descriptorParsed (header : LocalFileHeader) (comp_size uncomp_size : Nat)
  | zend (header : LocalFileHeader) (comp_size uncomp_size : Nat)
  | sentinel
  | error
  deriving Repr, DecidableEq

/-- Port of zip.rs ZipFile. -/
structure ZipFile where
  state : ZState
  unparsed : List Nat
  inflater : InnerState
  deriving Repr, DecidableEq

/-- Port of the readers ParseResult (zip.rs and gzip.rs); panicRes marks the
unreachable!/panic! arms. -/
inductive PRes (ε : Type) (F : Type) where
  | cont
  | needsInput
  | output
  | error (e : ε)
  | nextFile (f : F)
  | endOfFile
  | panicRes

/-- Port of zip.rs start_stream. -/
def zip_start_stream : ZipFile :=
  { state := .init, unparsed := [], inflater := deflate_stream_new }

/-- Port of zip.rs peek_stream: try to parse a local file header from the
input; on success hand out a reader with the header pre-parsed, on
Incomplete retain the bytes in the fresh reader and report everything
consumed. -/
def zip_peek_stream (input : List Nat) : Except ZipError (List Nat × ZipFile) :=
  match LocalFileHeader.parse input with
  | .ok unparsed header =>
    .ok (unparsed,
         { state := .headerParsed header, unparsed := [], inflater := deflate_stream_new })
  | .incomplete =>
    .ok ([], { state := .init, unparsed := input, inflater := deflate_stream_new })
  | .err .notLocalFileHeader => .error .notLocalFileHeader
  | .err _ => .error .invalidLocalFileHeader
  | .fail _ => .error .invalidLocalFileHeader

/-- Port of ZipFile::parse_header (the locally created and discarded
inflater of the Rust code is omitted). -/
def ZipFile.parse_header (input : InputView) : Nat × ZState × PRes ZipError ZipFile :=
  match LocalFileHeader.parse input.data with
  | .ok unparsed header =>
    (input.data.length - unparsed.length, .headerParsed header, .cont)
  | .incomplete => (0, .init, .needsInput)
  | .err _ => (0, .error, .error .invalidLocalFileHeader)
  | .fail _ => (0, .error, .error .invalidLocalFileHeader)

/-- Port of ZipFile::detect_empty_stream: some means an early return. -/
def ZipFile.detect_empty_stream (input : List Nat) (header : LocalFileHeader) :
    Option (Nat × ZState × PRes ZipError ZipFile) :=
  if header.compressed_size = 0 ∧ header.uncompressed_size = 0 ∧
      header.deferred_sizes = false then
    if input.length < 4 then some (0, .headerParsed header, .needsInput)
    else if input.take 4 = LOCAL_FILE_HEADER_TAG then
      some (0, .inflated header 0 0, .cont)
    else none
  else none

/-- Port of ZipFile::inflate, parameterised by the DEFLATE primitive; also
returns the updated inflater. -/
def ZipFile.inflate (dstep : DStep) (input : InputView) (header : LocalFileHeader)
    (infl : InnerState) : Nat × ZState × PRes ZipError ZipFile × InnerState :=
  match ZipFile.detect_empty_stream input.data header with
  | some (n, st, r) => (n, st, r, infl)
  | none =>
    match consume_input dstep input.data infl with
    | (.ok (.needsInput unparsed_input), infl2) =>
      (input.data.length - unparsed_input.length, .headerParsed header, .cont, infl2)
    | (.ok (.hasOutput unparsed_input _), infl2) =>
      (input.data.length - unparsed_input.length, .headerParsed header, .output, infl2)
    | (.ok (.stop unparsed_input), infl2) =>
      (input.data.length - unparsed_input.length,
       .inflated header infl2.comp_size infl2.uncomp_size, .cont, infl2)
    | (.fatal, infl2) =>
      (0, .headerParsed header, .error .invalidDeflateStream, infl2)

/-- Port of ZipFile::parse_descriptor.  The Err arms of the Rust code are
unreachable! (the descriptor parsers never produce them) and map to
panicRes. -/
def ZipFile.parse_descriptor (input : InputView) (header : LocalFileHeader)
    (comp_size uncomp_size : Nat) : Nat × ZState × PRes ZipError ZipFile :=
  match (if header.is_zip64 then DataDescriptor.parse_zip64 input.data
         else DataDescriptor.parse_zip input.data) with
  | .ok unparsed desc =>
    let desc_must_exist := desc.tag = true ∨ header.deferred_sizes = true
    let actual_uncomp_size :=
      if header.is_zip64 then uncomp_size else uncomp_size % 4294967296
    let actual_comp_size :=
      if header.is_zip64 then comp_size else comp_size % 4294967296
    if actual_uncomp_size = desc.uncompressed_size ∧
        actual_comp_size = desc.compressed_size then
      (input.data.length - unparsed.length,
       .descriptorParsed header comp_size uncomp_size, .cont)
    else if desc_must_exist then (0, .error, .error .invalidDataDescriptor)
    else (0, .descriptorParsed header comp_size uncomp_size, .cont)
  | .incomplete => (0, .inflated header comp_size uncomp_size, .needsInput)
  | .err _ => (0, .sentinel, .panicRes)
  | .fail _ => (0, .sentinel, .panicRes)

/-- Port of ZipFile::end: peek for the next local file header, else check
for the central directory. -/
def ZipFile.end_step (input : InputView) (header : LocalFileHeader)
    (comp_size uncomp_size : Nat) : Nat × ZState × PRes ZipError ZipFile :=
  match zip_peek_stream input.data with
  | .ok (unparsed, next_file) =>
    (input.data.length - unparsed.length,
     .zend header comp_size uncomp_size, .nextFile next_file)
  | .error .notLocalFileHeader =>
    match CentralDirHeader.parse input.data with
    | .ok _ _ => (0, .zend header comp_size uncomp_size, .cont)
    | .incomplete => (0, .descriptorParsed header comp_size uncomp_size, .needsInput)
    | .err _ => (0, .error, .error .invalidCentralDirHeader)
    | .fail _ => (0, .error, .error .invalidCentralDirHeader)
  | .error e => (0, .error, .error e)

/-- Port of ZipFile::parse_step. -/
def ZipFile.parse_step (dstep : DStep) (st : ZState) (input : InputView)
    (infl : InnerState) : Nat × ZState × PRes ZipError ZipFile × InnerState :=
  match st with
  | .init =>
    match ZipFile.parse_header input with
    | (n, s, r) => (n, s, r, infl)
  | .headerParsed h => ZipFile.inflate dstep input h infl
  | .inflated h c u =>
    match ZipFile.parse_descriptor input h c u with
    | (n, s, r) => (n, s, r, infl)
  | .descriptorParsed h c u =>
    match ZipFile.end_step input h c u with
    | (n, s, r) => (n, s, r, infl)
  | .zend h c u => (0, .zend h c u, .endOfFile, infl)
  | .sentinel => (0, .sentinel, .panicRes, infl)
  | .error => (0, .error, .panicRes, infl)

/-- Port of the unified State type of lib.rs, reader payloads included. -/
inductive ReadRes (F : Type) where
  | needsInput
  | needsInputOrEof (next : F)
  | hasOutput (unparsed_input : List Nat) (output : List Nat)
  | nextFile (unparsed_input : List Nat) (next_file : F)
  | endOfFile

/-- Outcome of one read call: the Rust Result plus the mutated reader;
assertFail marks a tripped debug assertion in InputHandler::consumed and
panic the panicking paths (assert_take_long on a Short view, read called in
a terminal state, fuel exhaustion of the loop model). -/
inductive ReadOutcome (ε : Type) (F : Type) where
  | ok (r : ReadRes F) (self : F)
  | err (e : ε) (self : F)
  | assertFail
  | panic

/-- Port of the ZipFile::read loop body.  Fuel only bounds the iteration
count and is chosen large enough by the wrapper. -/
def ZipFile.read_loop (dstep : DStep) :
    Nat → InputHandler → InputView → ZState → InnerState → ReadOutcome ZipError ZipFile
  | 0, _, _, _, _ => .panic
  | fuel + 1, ih, view, st, infl =>
    match ZipFile.parse_step dstep st view infl with
    | (bytes_consumed, new_state, res, infl2) =>
      match ih.consumed bytes_consumed with
      | none => .assertFail
      | some (view2, ih2) =>
        match res with
        | .cont =>
          if view2.data.isEmpty then
            .ok .needsInput
              { state := new_state, unparsed := ih2.return_storage, inflater := infl2 }
          else ZipFile.read_loop dstep fuel ih2 view2 new_state infl2
        | .needsInput =>
          match ih2.extend_input with
          | (0, ih3) =>
            .ok .needsInput
              { state := new_state, unparsed := ih3.return_storage, inflater := infl2 }
          | (_ + 1, ih3) =>
            let view3 := ih3.get_unparsed
            if view3.data.isEmpty then
              .ok .needsInput
                { state := new_state, unparsed := ih3.return_storage, inflater := infl2 }
            else ZipFile.read_loop dstep fuel ih3 view3 new_state infl2
        | .output =>
          match view2.assert_take_long with
          | none => .panic
          | some unparsed_input =>
            .ok (.hasOutput unparsed_input infl2.get_output)
              { state := new_state, unparsed := ih2.return_storage, inflater := infl2 }
        | .error e =>
          .err e { state := new_state, unparsed := ih2.return_storage, inflater := infl2 }
        | .nextFile f =>
          match view2.assert_take_long with
          | none => .panic
          | some unparsed_input =>
            .ok (.nextFile unparsed_input f)
              { state := new_state, unparsed := ih2.return_storage, inflater := infl2 }
        | .endOfFile =>
          .ok .endOfFile
            { state := new_state, unparsed := ih2.return_storage, inflater := infl2 }
        | .panicRes => .panic

/-- Port of ZipFile::read. -/
def ZipFile.read (dstep : DStep) (zf : ZipFile) (input : List Nat) :
    ReadOutcome ZipError ZipFile :=
  let ih := InputHandler.take_storage zf.unparsed input
  ZipFile.read_loop dstep (input.length + zf.unparsed.length + 16)
    ih ih.get_unparsed zf.state zf.inflater

/- ### GzipReader state machine (src/gzip.rs) -/

/-- Port of gzip.rs InternalState. -/
inductive GState where
  | init
  | headerParsed (header : MemberHeader)
  | inflated (header : MemberHeader) (comp_size uncomp_size : Nat)
  | gend (header : MemberHeader) (comp_size uncomp_size : Nat)
  | eof
  | sentinel
  | gerror
  deriving Repr, DecidableEq

/-- Port of gzip.rs GZipFile. -/
structure GZipFile where
  state : GState
  unparsed : List Nat
  inflater : InnerState
  deriving Repr, DecidableEq

/-- Port of gzip.rs start_stream. -/
def gzip_start_stream : GZipFile :=
  { state := .init, unparsed := [], inflater := deflate_stream_new }

/-- Port of gzip.rs peek_stream: both on success and on Incomplete the
handed reader is a fresh Init reader with empty internal storage; on success
the header bytes are reported consumed (and the parsed header discarded), on
Incomplete the whole input is reported consumed and the bytes retained
nowhere. -/
def gzip_peek_stream (input : List Nat) : Except GZipError (List Nat × GZipFile) :=
  match MemberHeader.parse input with
  | .ok unparsed _header =>
    .ok (unparsed, { state := .init, unparsed := [], inflater := deflate_stream_new })
  | .incomplete =>
    .ok ([], { state := .init, unparsed := [], inflater := deflate_stream_new })
  | .err _ => .error .invalidMemberHeader
  | .fail _ => .error .invalidMemberHeader

/-- Port of GZipFile::parse_header. -/
def GZipFile.parse_header (input : InputView) : Nat × GState × PRes GZipError GZipFile :=
  match MemberHeader.parse input.data with
  | .ok unparsed header =>
    (input.data.length - unparsed.length, .headerParsed header, .cont)
  | .incomplete => (0, .init, .needsInput)
  | .err _ => (0, .gerror, .error .invalidMemberHeader)
  | .fail _ => (0, .gerror, .error .invalidMemberHeader)

/-- Port of GZipFile::inflate. -/
def GZipFile.inflate (dstep : DStep) (input : InputView) (header : MemberHeader)
    (infl : InnerState) : Nat × GState × PRes GZipError GZipFile × InnerState :=
  match consume_input dstep input.data infl with
  | (.ok (.needsInput unparsed_input), infl2) =>
    (input.data.length - unparsed_input.length, .headerParsed header, .cont, infl2)
  | (.ok (.hasOutput unparsed_input _), infl2) =>
    (input.data.length - unparsed_input.length, .headerParsed header, .output, infl2)
  | (.ok (.stop unparsed_input), infl2) =>
    (input.data.length - unparsed_input.length,
     .inflated header infl2.comp_size infl2.uncomp_size, .cont, infl2)
  | (.fatal, infl2) =>
    (0, .headerParsed header, .error .invalidDeflateStream, infl2)

/-- Port of GZipFile::parse_footer: parse the 8-byte footer; with nothing
after it the member ends, otherwise peek the next member header. -/
def GZipFile.parse_footer (input : InputView) (header : MemberHeader)
    (comp_size uncomp_size : Nat) : Nat × GState × PRes GZipError GZipFile :=
  match gzip_parse_footer input.data with
  | .ok unparsed _footer =>
    if unparsed.isEmpty then
      (input.data.length - unparsed.length,
       .gend header comp_size uncomp_size, .endOfFile)
    else
      match gzip_peek_stream unparsed with
      | .ok (unparsed2, next_file) =>
        (input.data.length - unparsed2.length,
         .gend header comp_size uncomp_size, .nextFile next_file)
      | .error e => (0, .inflated header comp_size uncomp_size, .error e)
  | .incomplete => (0, .inflated header comp_size uncomp_size, .needsInput)
  | .err _ => (0, .inflated header comp_size uncomp_size, .error .invalidFooter)
  | .fail _ => (0, .inflated header comp_size uncomp_size, .error .invalidFooter)

/-- Port of GZipFile::parse_step. -/
def GZipFile.parse_step (dstep : DStep) (st : GState) (input : InputView)
    (infl : InnerState) : Nat × GState × PRes GZipError GZipFile × InnerState :=
  match st with
  | .init =>
    match GZipFile.parse_header input with
    | (n, s, r) => (n, s, r, infl)
  | .headerParsed h => GZipFile.inflate dstep input h infl
  | .inflated h c u =>
    match GZipFile.parse_footer input h c u with
    | (n, s, r) => (n, s, r, infl)
  | .gend _ _ _ => (0, .eof, .endOfFile, infl)
  | .eof => (0, .eof, .panicRes, infl)
  | .sentinel => (0, .sentinel, .panicRes, infl)
  | .gerror => (0, .gerror, .panicRes, infl)

/-- Port of the GZipFile::read loop body.  Unlike the zip loop, only the
needs-input exit restores the working storage to the reader; every other
exit leaves the reader with empty retained storage (the Rust code returns
without calling return_storage). -/
def GZipFile.read_loop (dstep : DStep) :
    Nat → InputHandler → InputView → GState → InnerState → ReadOutcome GZipError GZipFile
  | 0, _, _, _, _ => .panic
  | fuel + 1, ih, view, st, infl =>
    match GZipFile.parse_step dstep st view infl with
    | (bytes_consumed, new_state, res, infl2) =>
      match ih.consumed bytes_consumed with
      | none => .assertFail
      | some (view2, ih2) =>
        match res with
        | .cont =>
          if view2.data.isEmpty then
            .ok .needsInput { state := new_state, unparsed := [], inflater := infl2 }
          else GZipFile.read_loop dstep fuel ih2 view2 new_state infl2
        | .needsInput =>
          match ih2.extend_input with
          | (0, ih3) =>
            .ok .needsInput
              { state := new_state, unparsed := ih3.return_storage, inflater := infl2 }
          | (_ + 1, ih3) =>
            let view3 := ih3.get_unparsed
            if view3.data.isEmpty then
              .ok .needsInput { state := new_state, unparsed := [], inflater := infl2 }
            else GZipFile.read_loop dstep fuel ih3 view3 new_state infl2
        | .output =>
          match view2.assert_take_long with
          | none => .panic
          | some unparsed_input =>
            .ok (.hasOutput unparsed_input infl2.get_output)
              { state := new_state, unparsed := [], inflater := infl2 }
        | .error e =>
          .err e { state := new_state, unparsed := [], inflater := infl2 }
        | .nextFile f =>
          match view2.assert_take_long with
          | none => .panic
          | some unparsed_input =>
            .ok (.nextFile unparsed_input f)
              { state := new_state, unparsed := [], inflater := infl2 }
        | .endOfFile =>
          if new_state = .eof then
            .ok .endOfFile { state := new_state, unparsed := [], inflater := infl2 }
          else
            .ok (.needsInputOrEof gzip_start_stream)
              { state := new_state, unparsed := [], inflater := infl2 }
        | .panicRes => .panic

/-- Port of GZipFile::read. -/
def GZipFile.read (dstep : DStep) (gf : GZipFile) (input : List Nat) :
    ReadOutcome GZipError GZipFile :=
  let ih := InputHandler.take_storage gf.unparsed input
  GZipFile.read_loop dstep (input.length + gf.unparsed.length + 16)
    ih ih.get_unparsed gf.state gf.inflater


/- ### Concrete fixtures used by the theorems -/

/-- A minimal GZIP member header: signature 1f 8b 08, flags 0, mtime 0,
xfl 0, os 3 (the shape of the repository test fixtures). -/
def gzipHeader10 : List Nat := [0x1f, 0x8b, 0x08, 0x00, 0, 0, 0, 0, 0x00, 0x03]

/-- An 8-byte GZIP footer (crc32 0, isize 0). -/
def gzipFooter8 : List Nat := [0, 0, 0, 0, 0, 0, 0, 0]

/-- A minimal 30-byte ZIP local file header: version 20, flags 0, method 8
(Deflated), time 00:00:00, date 1980-01-01, crc 0, sizes 0, no filename and
an extra-fields region of the given length followed by the given bytes. -/
def zipLocalHeader (extra_len : Nat) (extras : List Nat) : List Nat :=
  [0x50, 0x4b, 0x03, 0x04, 20, 0, 0, 0, 8, 0, 0x00, 0x00, 0x21, 0x00,
   0, 0, 0, 0, 0, 0, 0, 0, 0, 0, 0, 0, 0, 0, extra_len % 256, extra_len / 256] ++ extras

/-- The C2 failing input: a local file header whose extras region holds one
entry with the unknown header id 0x9999 and a 4-byte payload. -/
def c2FailingInput : List Nat := zipLocalHeader 8 [0x99, 0x99, 0x04, 0x00, 1, 2, 3, 4]

/-- The same header with the known id 0x5455 (ExtendedTimestamp) instead. -/
def c2KnownIdInput : List Nat := zipLocalHeader 8 [0x55, 0x54, 0x04, 0x00, 1, 2, 3, 4]

/-- A DEFLATE primitive stand-in that is never reached by the run that uses
it (the exercised paths never enter the inflate step). -/
def dstep_unused : DStep :=
  fun st _ => { status := .needsMoreInput, in_consumed := 0, out := [], decomp := st.decomp }

/-- A concrete parsed GZIP member header. -/
def mhEx : MemberHeader := { mtime := 0, os := 3, filename := none, fcomment := none }

/-- A gzip reader that has just finished inflating a member (state
Inflated). -/
def gzInflatedEx : GZipFile :=
  { state := .inflated mhEx 1 1, unparsed := [], inflater := deflate_stream_new }

/-- A DEFLATE primitive stand-in whose every step reports a fatal status. -/
def dstep_fatal : DStep :=
  fun st _ => { status := .fatal, in_consumed := 0, out := [], decomp := st.decomp }

/-- A concrete local file header value with selectable flags, used to
instantiate descriptor-validation statements. -/
def lfhEx (deferred zip64 : Bool) : LocalFileHeader :=
  { version_needed := 20, encrypted := false, deflate_mode := .normal,
    deferred_sizes := deferred, compression_method := .deflated, last_mod := 0,
    crc_32 := 0, compressed_size := 0, uncompressed_size := 0, filename := [],
    is_zip64 := zip64, extra_fields := [] }

/-- A DEFLATE primitive used by the C1 runs: on input starting with the
body marker byte 0xAA it ends the stream consuming that one byte and
producing nothing (an empty DEFLATE stream body); otherwise it requests
more input after consuming everything. -/
def dstepC1 : DStep := fun st input =>
  match input with
  | 0xAA :: _ => { status := .done, in_consumed := 1, out := [], decomp := st.decomp }
  | _ => { status := .needsMoreInput, in_consumed := input.length, out := [], decomp := st.decomp }

/-- One complete GZIP member for the C1 runs: header, one-byte body, footer. -/
def c1Member : List Nat := gzipHeader10 ++ [0xAA] ++ gzipFooter8

/-- The two-member stream of the C1 runs. -/
def c1Whole : List Nat := c1Member ++ c1Member

/-- A primitive step used for claim C6: report NeedsMoreInput after
consuming three bytes and producing one output byte. -/
def dstepC6 : DStep := fun st _ =>
  { status := .needsMoreInput, in_consumed := 3, out := [7], decomp := st.decomp }

/-- The inflater state after the C6 run: one produced byte sits in the
window, counted in uncomp_size, with had_output still false. -/
def c6st2 : InnerState :=
  { deflate_stream_new with
      comp_size := 3, uncomp_size := 1,
      output := writeAt deflate_stream_new.output 0 [7],
      out_pos := 1, decomp := 0 }

/-- A DEFLATE primitive used by the C7 runs: the stream ends after two
bytes (an empty final block), leaving the rest unconsumed, as miniz does
when trailing bytes follow a finished stream. -/
def dstepC7 : DStep := fun st _ =>
  { status := .done, in_consumed := 2, out := [], decomp := st.decomp }

/-- The header parsed on the first C7 call: the minimal 30-byte local file
header (sizes zero, flags zero). -/
def c7hdr : LocalFileHeader :=
  { version_needed := 20, encrypted := false, deflate_mode := .normal,
    deferred_sizes := false, compression_method := .deflated,
    last_mod := 315532800, crc_32 := 0, compressed_size := 0,
    uncompressed_size := 0, filename := [], is_zip64 := false, extra_fields := [] }

/-- The zip reader returned by the first C7 call: header parsed, three
retained body bytes. -/
def c7zf1 : ZipFile :=
  { state := .headerParsed c7hdr, unparsed := [3, 0, 0xAA], inflater := deflate_stream_new }

/-- The stitched input handler at the start of the second C7 call: three
stored bytes, one new input byte. -/
def c7ihA : InputHandler :=
  { orig_stored := 3, input_consumed := 0, storage := [3, 0, 0xAA, 0xBB],
    orig_input := [0xBB] }

/- ### Theorems -/

set_option maxHeartbeats 3000000 in
/-- C4: for every in-range MS-DOS date (leap rule: 1980+y is a leap year iff
y mod 4 = 0 except 2100), days_since_msdos_epoch returns the ordinal of the
date counting 1980-01-01 as day 0 given by the closed formula
msdos_ordinal_spec, and for every out-of-range input (including 2100-02-29)
it returns an error. -/
theorem c4_msdos_date_conversion (y m d : Nat) :
    (msdos_date_in_range y m d →
      days_since_msdos_epoch y m d = some (msdos_ordinal_spec y m d)) ∧
    (¬ msdos_date_in_range y m d → days_since_msdos_epoch y m d = none) := by
  constructor
  · rintro ⟨hy, hm1, hm2, hd1, hd2⟩
    unfold days_in_month_leap_aware at hd2
    interval_cases m <;>
      simp only [days_since_msdos_epoch, msdos_ordinal_spec, DAYS_IN_MONTH, DAY_OF_YEAR,
        List.getD_cons_zero, List.getD_cons_succ, Nat.reduceSub, Nat.zero_sub,
        show (1980 : Nat) = 4 * 495 from rfl, Nat.mul_add_mod] at hd2 ⊢ <;>
      split_ifs at hd2 ⊢ <;>
      first
        | rfl
        | omega
        | (simp only [Option.some.injEq]; omega)
        | (simp_all; omega)
        | simp_all
  · intro h
    unfold msdos_date_in_range days_in_month_leap_aware at h
    rcases Nat.lt_or_ge m 13 with hm | hm
    · rcases eq_or_ne m 0 with rfl | hm0
      · simp only [days_since_msdos_epoch]; split_ifs <;> first | rfl | omega | simp_all
      · have hm1 : 1 ≤ m := Nat.one_le_iff_ne_zero.mpr hm0
        interval_cases m <;>
          simp only [days_since_msdos_epoch, DAYS_IN_MONTH, DAY_OF_YEAR,
            List.getD_cons_zero, List.getD_cons_succ, Nat.reduceSub, Nat.zero_sub,
            show (1980 : Nat) = 4 * 495 from rfl, Nat.mul_add_mod] at h ⊢ <;>
          split_ifs at h ⊢ <;>
          first | rfl | omega | (simp_all; omega) | simp_all
    · simp only [days_since_msdos_epoch]; split_ifs <;> first | rfl | omega | simp_all

/-- Witness for C4 at the leap day 2000-02-29 (in range) and at the skipped
leap day 2100-02-29 (out of range). -/
theorem c4_msdos_date_conversion_witness :
    days_since_msdos_epoch 20 2 29 = some (msdos_ordinal_spec 20 2 29) ∧
    days_since_msdos_epoch 120 2 29 = none :=
  ⟨(c4_msdos_date_conversion 20 2 29).1 (by decide),
   (c4_msdos_date_conversion 120 2 29).2 (by decide)⟩

/-- C2 (code evaluated at the failing input): an extras region holding an
entry with the unrecognised header id 0x9999 makes LocalFileHeader::parse
fail with Err::Failure(InvalidLocalFileHeader) (there is no Unknown(u16)
header id), and a ZipFile::read over the archive returns that error instead
of reaching completion; the identical header with a known id parses and the
entry is retained. -/
theorem c2_unknown_header_id_fails_parse :
    LocalFileHeader.parse c2FailingInput = .fail .invalidLocalFileHeader ∧
    ZipFile.read dstep_unused zip_start_stream c2FailingInput =
      .err .invalidLocalFileHeader
        { state := .error, unparsed := [], inflater := deflate_stream_new } ∧
    (match LocalFileHeader.parse c2KnownIdInput with
     | .ok _ hdr => hdr.extra_fields = [(.extendedTimestamp, [1, 2, 3, 4])]
     | _ => False) :=
  ⟨rfl, rfl, rfl⟩


/-- Helper: reduce an if on the Bool false. -/
theorem if_bool_false {α : Type} (a b : α) : (if (false : Bool) = true then a else b) = b := rfl

/-- Helper: reduce an if on the Bool true. -/
theorem if_bool_true {α : Type} (a b : α) : (if (true : Bool) = true then a else b) = a := rfl

/-- Helper: a streaming tag parser succeeds exactly on a full prefix match,
consuming the tag. -/
theorem tagP_eq_ok {ε : Type} (e : ε) (t : List Nat) :
    ∀ i : List Nat, i.take t.length = t → tagP e t i = .ok (i.drop t.length) () := by
  induction t with
  | nil => intro i _; simp [tagP]
  | cons a t ih =>
    intro i h
    cases i with
    | nil => simp at h
    | cons b i =>
      rw [List.length_cons, List.take_succ_cons, List.cons.injEq] at h
      rw [List.length_cons, List.drop_succ_cons]
      unfold tagP
      rw [if_pos h.1.symm]
      exact ih i h.2

/-- Helper: a streaming tag parser reports a recoverable error when enough
bytes are present and they do not match the tag. -/
theorem tagP_eq_err {ε : Type} (e : ε) (t : List Nat) :
    ∀ i : List Nat, t.length ≤ i.length → i.take t.length ≠ t → tagP e t i = .err e := by
  induction t with
  | nil => intro i _ h; simp at h
  | cons a t ih =>
    intro i hlen h
    cases i with
    | nil => simp at hlen
    | cons b i =>
      rw [List.length_cons, List.take_succ_cons] at h
      unfold tagP
      by_cases hab : a = b
      · rw [if_pos hab]
        refine ih i (by simpa using hlen) ?_
        intro hc; exact h (by rw [hc, hab])
      · rw [if_neg hab]

/-- Helper: le_u32 succeeds on any input of at least four bytes, consuming
exactly four. -/
theorem le_u32_ok_of_len {ε : Type} (i : List Nat) (h : 4 ≤ i.length) :
    ∃ v, le_u32 (ε := ε) i = .ok (i.drop 4) v := by
  match i, h with
  | b0 :: b1 :: b2 :: b3 :: r, _ => exact ⟨_, rfl⟩

/-- Helper: le_u64 succeeds on any input of at least eight bytes, consuming
exactly eight. -/
theorem le_u64_ok_of_len {ε : Type} (i : List Nat) (h : 8 ≤ i.length) :
    ∃ v, le_u64 (ε := ε) i = .ok (i.drop 8) v := by
  match i, h with
  | b0 :: b1 :: b2 :: b3 :: b4 :: b5 :: b6 :: b7 :: r, _ => exact ⟨_, rfl⟩

/-- Helper: the narrow descriptor field parser consumes 12 bytes whenever
they are available, recording the tag flag it was given. -/
theorem parseFields_ok12 (tg : Bool) (i : List Nat) (h : 12 ≤ i.length) :
    ∃ d, DataDescriptor.parseFields tg false i = .ok (i.drop 12) d ∧ d.tag = tg := by
  obtain ⟨v1, h1⟩ := le_u32_ok_of_len (ε := ZipError) i (by omega)
  obtain ⟨v2, h2⟩ := le_u32_ok_of_len (ε := ZipError) (i.drop 4)
    (by rw [List.length_drop]; omega)
  obtain ⟨v3, h3⟩ := le_u32_ok_of_len (ε := ZipError) (i.drop 8)
    (by rw [List.length_drop]; omega)
  simp only [DataDescriptor.parseFields, h1, if_bool_false, h2, h3,
    List.drop_drop, Nat.reduceAdd]
  exact ⟨_, rfl, rfl⟩

/-- Helper: the wide descriptor field parser consumes 20 bytes whenever they
are available, recording the tag flag it was given. -/
theorem parseFields_ok20 (tg : Bool) (i : List Nat) (h : 20 ≤ i.length) :
    ∃ d, DataDescriptor.parseFields tg true i = .ok (i.drop 20) d ∧ d.tag = tg := by
  obtain ⟨v1, h1⟩ := le_u32_ok_of_len (ε := ZipError) i (by omega)
  obtain ⟨v2, h2⟩ := le_u64_ok_of_len (ε := ZipError) (i.drop 4)
    (by rw [List.length_drop]; omega)
  obtain ⟨v3, h3⟩ := le_u64_ok_of_len (ε := ZipError) (i.drop 12)
    (by rw [List.length_drop]; omega)
  simp only [DataDescriptor.parseFields, h1, if_bool_true, if_true, h2, h3,
    List.drop_drop, Nat.reduceAdd]
  exact ⟨_, rfl, rfl⟩

/-- C3 counterexample: a 12-byte (resp. 20-byte) input that begins with the
optional descriptor signature makes DataDescriptor::parse_zip (resp.
parse_zip64) return Incomplete, so the parse does not always succeed
syntactically on 12 (resp. 20) bytes. -/
theorem c3_counterexample :
    DataDescriptor.parse_zip
        [0x50, 0x4b, 0x07, 0x08, 0, 0, 0, 0, 0, 0, 0, 0] = .incomplete ∧
    DataDescriptor.parse_zip64
        [0x50, 0x4b, 0x07, 0x08, 0, 0, 0, 0, 0, 0, 0, 0, 0, 0, 0, 0, 0, 0, 0, 0] =
      .incomplete :=
  ⟨rfl, rfl⟩

/-- C3 (amended): the descriptor parse always succeeds syntactically given
12 (ZIP) or 20 (ZIP64) bytes when the input does not begin with the optional
signature, and given 16 or 24 bytes when it does; in
ZipFile::parse_descriptor, when the tag is absent, deferred_sizes is false
and the parsed sizes differ from the actual inflated sizes (modulo 2^32 on
the non-ZIP64 path, exactly on the ZIP64 path), zero bytes are consumed and
the state advances to DescriptorParsed without error; when the tag is
present or deferred_sizes is true and the sizes mismatch, the result is the
InvalidDataDescriptor error with zero bytes consumed. -/
theorem c3_descriptor_parse_and_validation :
    (∀ i : List Nat, 12 ≤ i.length → i.take 4 ≠ DATA_DESCRIPTOR_TAG →
      ∃ d, DataDescriptor.parse_zip i = .ok (i.drop 12) d ∧ d.tag = false) ∧
    (∀ i : List Nat, 16 ≤ i.length → i.take 4 = DATA_DESCRIPTOR_TAG →
      ∃ d, DataDescriptor.parse_zip i = .ok (i.drop 16) d ∧ d.tag = true) ∧
    (∀ i : List Nat, 20 ≤ i.length → i.take 4 ≠ DATA_DESCRIPTOR_TAG →
      ∃ d, DataDescriptor.parse_zip64 i = .ok (i.drop 20) d ∧ d.tag = false) ∧
    (∀ i : List Nat, 24 ≤ i.length → i.take 4 = DATA_DESCRIPTOR_TAG →
      ∃ d, DataDescriptor.parse_zip64 i = .ok (i.drop 24) d ∧ d.tag = true) ∧
    (∀ (v : InputView) (h : LocalFileHeader) (cs us : Nat) (rest : List Nat)
        (d : DataDescriptor),
      (if h.is_zip64 then DataDescriptor.parse_zip64 v.data
       else DataDescriptor.parse_zip v.data) = .ok rest d →
      d.tag = false → h.deferred_sizes = false →
      ¬((if h.is_zip64 then us else us % 4294967296) = d.uncompressed_size ∧
        (if h.is_zip64 then cs else cs % 4294967296) = d.compressed_size) →
      ZipFile.parse_descriptor v h cs us = (0, .descriptorParsed h cs us, .cont)) ∧
    (∀ (v : InputView) (h : LocalFileHeader) (cs us : Nat) (rest : List Nat)
        (d : DataDescriptor),
      (if h.is_zip64 then DataDescriptor.parse_zip64 v.data
       else DataDescriptor.parse_zip v.data) = .ok rest d →
      (d.tag = true ∨ h.deferred_sizes = true) →
      ¬((if h.is_zip64 then us else us % 4294967296) = d.uncompressed_size ∧
        (if h.is_zip64 then cs else cs % 4294967296) = d.compressed_size) →
      ZipFile.parse_descriptor v h cs us = (0, .error, .error .invalidDataDescriptor)) := by
  have tag_len : DATA_DESCRIPTOR_TAG.length = 4 := rfl
  refine ⟨?_, ?_, ?_, ?_, ?_, ?_⟩
  · intro i hlen htag
    have ht := tagP_eq_err (ε := ZipError) .nomError DATA_DESCRIPTOR_TAG i
      (by rw [tag_len]; omega) (by rw [tag_len]; exact htag)
    obtain ⟨d, hd, hdt⟩ := parseFields_ok12 false i hlen
    exact ⟨d, by simp only [DataDescriptor.parse_zip, DataDescriptor.parseCore, ht, hd], hdt⟩
  · intro i hlen htag
    have ht := tagP_eq_ok (ε := ZipError) .nomError DATA_DESCRIPTOR_TAG i
      (by rw [tag_len]; exact htag)
    rw [tag_len] at ht
    obtain ⟨d, hd, hdt⟩ := parseFields_ok12 true (i.drop 4)
      (by rw [List.length_drop]; omega)
    refine ⟨d, ?_, hdt⟩
    simp only [DataDescriptor.parse_zip, DataDescriptor.parseCore, ht, hd,
      List.drop_drop, Nat.reduceAdd]
  · intro i hlen htag
    have ht := tagP_eq_err (ε := ZipError) .nomError DATA_DESCRIPTOR_TAG i
      (by rw [tag_len]; omega) (by rw [tag_len]; exact htag)
    obtain ⟨d, hd, hdt⟩ := parseFields_ok20 false i hlen
    exact ⟨d, by simp only [DataDescriptor.parse_zip64, DataDescriptor.parseCore, ht, hd], hdt⟩
  · intro i hlen htag
    have ht := tagP_eq_ok (ε := ZipError) .nomError DATA_DESCRIPTOR_TAG i
      (by rw [tag_len]; exact htag)
    rw [tag_len] at ht
    obtain ⟨d, hd, hdt⟩ := parseFields_ok20 true (i.drop 4)
      (by rw [List.length_drop]; omega)
    refine ⟨d, ?_, hdt⟩
    simp only [DataDescriptor.parse_zip64, DataDescriptor.parseCore, ht, hd,
      List.drop_drop, Nat.reduceAdd]
  · intro v h cs us rest d hparse hdt hdef hmis
    simp only [ZipFile.parse_descriptor, hparse]
    rw [if_neg hmis, if_neg]
    simp [hdt, hdef]
  · intro v h cs us rest d hparse hdt hmis
    simp only [ZipFile.parse_descriptor, hparse]
    rw [if_neg hmis, if_pos]
    rcases hdt with h1 | h1
    · exact Or.inl h1
    · exact Or.inr h1

/-- Witness for C3: the no-signature success clause at twelve zero bytes,
and the descriptor-required error clause at a signature-led descriptor whose
sizes disagree with the actual counts. -/
theorem c3_witness :
    (∃ d, DataDescriptor.parse_zip [0, 0, 0, 0, 0, 0, 0, 0, 0, 0, 0, 0] =
        .ok [] d ∧ d.tag = false) ∧
    ZipFile.parse_descriptor
        (.long [0x50, 0x4b, 0x07, 0x08, 0, 0, 0, 0, 0, 0, 0, 0, 0, 0, 0, 0])
        (lfhEx true false) 1 0 =
      (0, .error, .error .invalidDataDescriptor) :=
  ⟨c3_descriptor_parse_and_validation.1 [0, 0, 0, 0, 0, 0, 0, 0, 0, 0, 0, 0]
      (by decide) (by decide),
   c3_descriptor_parse_and_validation.2.2.2.2.2
      (.long [0x50, 0x4b, 0x07, 0x08, 0, 0, 0, 0, 0, 0, 0, 0, 0, 0, 0, 0])
      (lfhEx true false) 1 0 []
      { tag := true, crc_32 := 0, uncompressed_size := 0, compressed_size := 0 }
      rfl (Or.inl rfl) (by decide)⟩


/-- C5 counterexample: a read that returns the fatal InvalidMemberHeader
error (the peek after a footer hits bytes that are no member header) leaves
the gzip reader in state Inflated, not Error. -/
theorem c5_counterexample :
    GZipFile.read dstep_unused gzInflatedEx
        [0, 0, 0, 0, 0, 0, 0, 0, 0, 0, 0, 0] =
      .err .invalidMemberHeader
        { state := .inflated mhEx 1 1, unparsed := [], inflater := deflate_stream_new } ∧
    GState.inflated mhEx 1 1 ≠ GState.gerror :=
  ⟨rfl, by decide⟩

/-- C5 (amended): fatal errors from the header parsing steps do put the
reader in the Error state (zip: local file header, data descriptor when one
must exist, end-of-entry peek and central directory; gzip: member header),
but the two remaining fatal paths do not: a fatal DEFLATE status mapped to
InvalidDeflateStream leaves the state at HeaderParsed, and errors on the
gzip footer path (InvalidFooter, or InvalidMemberHeader from the peek after
the footer) leave the state at Inflated. -/
theorem c5_error_state_discipline :
    (∀ (v : InputView) (n : Nat) (st : ZState) (e : ZipError),
      ZipFile.parse_header v = (n, st, .error e) → st = .error) ∧
    (∀ (v : InputView) (h : LocalFileHeader) (cs us n : Nat) (st : ZState) (e : ZipError),
      ZipFile.parse_descriptor v h cs us = (n, st, .error e) → st = .error) ∧
    (∀ (v : InputView) (h : LocalFileHeader) (cs us n : Nat) (st : ZState) (e : ZipError),
      ZipFile.end_step v h cs us = (n, st, .error e) → st = .error) ∧
    (∀ (dstep : DStep) (v : InputView) (h : LocalFileHeader) (infl : InnerState)
        (n : Nat) (st : ZState) (e : ZipError) (infl2 : InnerState),
      ZipFile.inflate dstep v h infl = (n, st, .error e, infl2) →
      st = .headerParsed h ∧ e = .invalidDeflateStream) ∧
    (∀ (v : InputView) (n : Nat) (st : GState) (e : GZipError),
      GZipFile.parse_header v = (n, st, .error e) → st = .gerror) ∧
    (∀ (dstep : DStep) (v : InputView) (h : MemberHeader) (infl : InnerState)
        (n : Nat) (st : GState) (e : GZipError) (infl2 : InnerState),
      GZipFile.inflate dstep v h infl = (n, st, .error e, infl2) →
      st = .headerParsed h ∧ e = .invalidDeflateStream) ∧
    (∀ (v : InputView) (h : MemberHeader) (cs us n : Nat) (st : GState) (e : GZipError),
      GZipFile.parse_footer v h cs us = (n, st, .error e) → st = .inflated h cs us) := by
  refine ⟨?_, ?_, ?_, ?_, ?_, ?_, ?_⟩
  · intro v n st e hp
    unfold ZipFile.parse_header at hp
    cases hres : LocalFileHeader.parse v.data <;> rw [hres] at hp <;>
      simp_all
  · intro v h cs us n st e hp
    unfold ZipFile.parse_descriptor at hp
    cases hres : (if h.is_zip64 then DataDescriptor.parse_zip64 v.data
                  else DataDescriptor.parse_zip v.data) <;>
      rw [hres] at hp <;> simp_all <;> split_ifs at hp <;> simp_all
  · intro v h cs us n st e hp
    unfold ZipFile.end_step at hp
    cases hres : zip_peek_stream v.data with
    | ok p => rw [hres] at hp; cases p; simp_all
    | error pe =>
      rw [hres] at hp
      cases pe <;> simp_all <;>
        (cases hcd : CentralDirHeader.parse v.data <;> rw [hcd] at hp <;> simp_all)
  · intro dstep v h infl n st e infl2 hp
    unfold ZipFile.inflate at hp
    cases hde : ZipFile.detect_empty_stream v.data h with
    | some r =>
      rw [hde] at hp
      obtain ⟨n2, st2, r2⟩ := r
      unfold ZipFile.detect_empty_stream at hde
      split_ifs at hde <;> simp_all
    | none =>
      rw [hde] at hp
      cases hci : consume_input dstep v.data infl with
      | mk cr infl3 =>
        rw [hci] at hp
        cases cr with
        | ok s => cases s <;> simp_all
        | fatal => simp_all
  · intro v n st e hp
    unfold GZipFile.parse_header at hp
    cases hres : MemberHeader.parse v.data <;> rw [hres] at hp <;> simp_all
  · intro dstep v h infl n st e infl2 hp
    unfold GZipFile.inflate at hp
    cases hci : consume_input dstep v.data infl with
    | mk cr infl3 =>
      rw [hci] at hp
      cases cr with
      | ok s => cases s <;> simp_all
      | fatal => simp_all
  · intro v h cs us n st e hp
    unfold GZipFile.parse_footer at hp
    cases hres : gzip_parse_footer v.data with
    | ok rest f =>
      rw [hres] at hp
      by_cases hre : rest.isEmpty <;> simp only [hre, if_true, if_false] at hp
      · simp_all
      · cases hpk : gzip_peek_stream rest with
        | ok p => rw [hpk] at hp; cases p; simp_all
        | error pe => rw [hpk] at hp; simp_all
    | incomplete => rw [hres] at hp; simp_all
    | err e2 => rw [hres] at hp; simp_all
    | fail e2 => rw [hres] at hp; simp_all

/-- Witness for C5: the local-file-header clause evaluated at four zero
bytes (the parse step reports the error with the state set to Error), and
the gzip inflate clause at a fatal primitive status (the state stays
HeaderParsed). -/
theorem c5_error_state_discipline_witness :
    ZipFile.parse_header (.long [0, 0, 0, 0]) =
      (0, ZState.error, .error .invalidLocalFileHeader) ∧
    ZState.error = ZState.error ∧
    GState.headerParsed mhEx = GState.headerParsed mhEx :=
  ⟨rfl,
   c5_error_state_discipline.1 (.long [0, 0, 0, 0]) 0 .error .invalidLocalFileHeader rfl,
   (c5_error_state_discipline.2.2.2.2.2.1 dstep_fatal
     (.long [7]) mhEx deflate_stream_new 0 (.headerParsed mhEx) .invalidDeflateStream
     _ rfl).1⟩


/-- Helper: take_storage with no retained bytes adopts the input unchanged. -/
theorem take_storage_nil (input : List Nat) :
    InputHandler.take_storage [] input =
      { orig_stored := 0, input_consumed := 0, storage := [], orig_input := input } := rfl

/-- Helper: consumed on a handler with empty storage and a positive count
advances the consumed counter and returns the Long tail. -/
theorem consumed_pos (input : List Nat) (ic n : Nat) (hn : 0 < n) :
    InputHandler.consumed
        { orig_stored := 0, input_consumed := ic, storage := [], orig_input := input } n =
      some (.long (input.drop (ic + n)),
        { orig_stored := 0, input_consumed := ic + n, storage := [], orig_input := input }) := by
  unfold InputHandler.consumed
  split_ifs <;> first | omega | simp | (simp_all; omega)

/-- C9: after the gzip reader parses the 8-byte footer with the input
exhausted it returns NeedsInputOrEof handing out a fresh reader; feeding
that fresh reader a member header starts decoding of another concatenated
member (state HeaderParsed); and a subsequent read of the original reader
with an empty input returns EndOfFile. -/
theorem c9_gzip_termination :
    (∀ (dstep : DStep) (h : MemberHeader) (cs us : Nat) (infl : InnerState)
        (b0 b1 b2 b3 b4 b5 b6 b7 : Nat),
      GZipFile.read dstep
          { state := .inflated h cs us, unparsed := [], inflater := infl }
          [b0, b1, b2, b3, b4, b5, b6, b7] =
        .ok (.needsInputOrEof gzip_start_stream)
          { state := .gend h cs us, unparsed := [], inflater := infl }) ∧
    (∀ (dstep : DStep) (h : MemberHeader) (cs us : Nat) (infl : InnerState),
      GZipFile.read dstep
          { state := .gend h cs us, unparsed := [], inflater := infl } [] =
        .ok .endOfFile { state := .eof, unparsed := [], inflater := infl }) ∧
    (∃ hdr, GZipFile.read dstep_unused gzip_start_stream gzipHeader10 =
        .ok .needsInput
          { state := .headerParsed hdr, unparsed := [], inflater := deflate_stream_new }) := by
  refine ⟨?_, ?_, ⟨mhEx, rfl⟩⟩
  · intro dstep h cs us infl b0 b1 b2 b3 b4 b5 b6 b7
    rfl
  · intro dstep h cs us infl
    rfl

/-- C10: when the footer parse succeeds and the remaining bytes are a
non-empty strict prefix of a member header (the header parse is
Incomplete), gzip peek_stream reports an empty unparsed slice and a fresh
Init reader with empty storage, and so read returns NextFile with all input
bytes counted as consumed while the leftover bytes are retained by no
reader. -/
theorem c10_gzip_peek_incomplete_drops_bytes
    (dstep : DStep) (h : MemberHeader) (cs us : Nat) (infl : InnerState)
    (b0 b1 b2 b3 b4 b5 b6 b7 : Nat) (r : Nat) (rs : List Nat)
    (hinc : MemberHeader.parse (r :: rs) = .incomplete) :
    gzip_peek_stream (r :: rs) =
      .ok ([], { state := .init, unparsed := [], inflater := deflate_stream_new }) ∧
    GZipFile.read dstep
        { state := .inflated h cs us, unparsed := [], inflater := infl }
        ([b0, b1, b2, b3, b4, b5, b6, b7] ++ r :: rs) =
      .ok (.nextFile [] { state := .init, unparsed := [], inflater := deflate_stream_new })
        { state := .gend h cs us, unparsed := [], inflater := infl } := by
  have hpeek : gzip_peek_stream (r :: rs) =
      .ok ([], { state := .init, unparsed := [], inflater := deflate_stream_new }) := by
    unfold gzip_peek_stream
    rw [hinc]
  refine ⟨hpeek, ?_⟩
  unfold GZipFile.read
  have hf : ([b0, b1, b2, b3, b4, b5, b6, b7] ++ r :: rs).length +
      ([] : List Nat).length + 16 = (rs.length + 24) + 1 := by
    simp [List.length_append]
  rw [hf, take_storage_nil]
  unfold GZipFile.read_loop
  rw [show InputHandler.get_unparsed
      { orig_stored := 0, input_consumed := 0, storage := [],
        orig_input := [b0, b1, b2, b3, b4, b5, b6, b7] ++ r :: rs } =
      .long ([b0, b1, b2, b3, b4, b5, b6, b7] ++ r :: rs) from rfl]
  simp only [GZipFile.parse_step, GZipFile.parse_footer, InputView.data, gzip_parse_footer,
    le_u32, List.cons_append, List.nil_append, List.isEmpty_cons, hpeek,
    List.length_cons, List.length_nil, Nat.sub_zero, Bool.false_eq_true, if_false, if_true]
  rw [consumed_pos _ _ _ (by omega)]
  simp only [InputView.assert_take_long, InputHandler.return_storage]
  rw [List.drop_eq_nil_of_le
    (by simp only [List.length_cons, List.length_append]; omega)]


/-- Helper: writing no bytes leaves the window unchanged. -/
theorem writeAt_nil (w : List Nat) (p : Nat) : writeAt w p [] = w := by
  simp [writeAt]

/-- Helper: acknowledging with no pending output is the identity. -/
theorem ack_of_not_had (st : InnerState) (h : st.had_output = false) :
    st.ack = st := by
  simp [InnerState.ack, h]

/-- Helper: evaluation of consume_input when the primitive reports Done
having written nothing and the window is not exactly full. -/
theorem consume_input_done_nil (dstep : DStep) (input : List Nat) (st : InnerState)
    (k dc : Nat) (hho : st.had_output = false)
    (hd : dstep st input = { status := .done, in_consumed := k, out := [], decomp := dc })
    (hpos : ¬ st.out_pos = st.output.length) :
    consume_input dstep input st =
      (.ok (.stop (input.drop k)),
       { st with comp_size := st.comp_size + k, decomp := dc }) := by
  simp only [consume_input, ack_of_not_had st hho, hd]
  simp [writeAt_nil, hpos]

/-- Helper: evaluation of consume_input when the primitive reports
NeedsMoreInput and the window does not end up exactly full. -/
theorem consume_input_needs (dstep : DStep) (input : List Nat) (st : InnerState)
    (k dc : Nat) (outb : List Nat) (hho : st.had_output = false)
    (hd : dstep st input =
      { status := .needsMoreInput, in_consumed := k, out := outb, decomp := dc })
    (hpos : ¬ st.out_pos + outb.length = (writeAt st.output st.out_pos outb).length) :
    consume_input dstep input st =
      (.ok (.needsInput (input.drop k)),
       { st with comp_size := st.comp_size + k,
                 uncomp_size := st.uncomp_size + outb.length,
                 output := writeAt st.output st.out_pos outb,
                 out_pos := st.out_pos + outb.length,
                 decomp := dc }) := by
  simp only [consume_input, ack_of_not_had st hho, hd]
  simp [hpos]

/-- Helper: the fresh window is 32768 zero bytes, so out position zero never
equals its length. -/
theorem dsn_out_pos_ne : ¬ (deflate_stream_new.out_pos = deflate_stream_new.output.length) := by
  show ¬ ((0 : Nat) = (List.replicate TINFL_LZ_DICT_SIZE (0 : Nat)).length)
  rw [List.length_replicate]
  decide

/-- Helper: field values of the fresh inflater. -/
theorem dsn_fields :
    deflate_stream_new.out_pos = 0 ∧ deflate_stream_new.last_out_pos = 0 ∧
    deflate_stream_new.decomp = 0 ∧ deflate_stream_new.uncomp_size = 0 ∧
    deflate_stream_new.comp_size = 0 ∧ deflate_stream_new.had_output = false :=
  ⟨rfl, rfl, rfl, rfl, rfl, rfl⟩

/-- Helper: one gzip read-loop iteration whose step continues with input
left runs another iteration. -/
theorem gzip_loop_cont (dstep : DStep) (fuel : Nat) (ih : InputHandler) (view : InputView)
    (st : GState) (infl : InnerState) (n : Nat) (st2 : GState) (infl2 : InnerState)
    (view2 : InputView) (ih2 : InputHandler)
    (hps : GZipFile.parse_step dstep st view infl = (n, st2, .cont, infl2))
    (hc : ih.consumed n = some (view2, ih2))
    (hne : view2.data.isEmpty = false) :
    GZipFile.read_loop dstep (fuel + 1) ih view st infl =
      GZipFile.read_loop dstep fuel ih2 view2 st2 infl2 := by
  conv_lhs => unfold GZipFile.read_loop
  simp only [hps, hc, hne, Bool.false_eq_true, if_false]

/-- Helper: one gzip read-loop iteration whose step hands out the next file
returns NextFile with the Long unparsed tail. -/
theorem gzip_loop_next (dstep : DStep) (fuel : Nat) (ih : InputHandler) (view : InputView)
    (st : GState) (infl : InnerState) (n : Nat) (st2 : GState) (infl2 : InnerState)
    (f : GZipFile) (up : List Nat) (ih2 : InputHandler)
    (hps : GZipFile.parse_step dstep st view infl = (n, st2, .nextFile f, infl2))
    (hc : ih.consumed n = some (.long up, ih2)) :
    GZipFile.read_loop dstep (fuel + 1) ih view st infl =
      .ok (.nextFile up f) { state := st2, unparsed := [], inflater := infl2 } := by
  unfold GZipFile.read_loop
  simp only [hps, hc, InputView.assert_take_long]

/-- Helper: one gzip read-loop iteration whose step reports end of file from
a state other than Eof returns NeedsInputOrEof with a fresh reader. -/
theorem gzip_loop_end (dstep : DStep) (fuel : Nat) (ih : InputHandler) (view : InputView)
    (st : GState) (infl : InnerState) (n : Nat) (st2 : GState) (infl2 : InnerState)
    (view2 : InputView) (ih2 : InputHandler)
    (hps : GZipFile.parse_step dstep st view infl = (n, st2, .endOfFile, infl2))
    (hc : ih.consumed n = some (view2, ih2))
    (hnee : (st2 = GState.eof) = False) :
    GZipFile.read_loop dstep (fuel + 1) ih view st infl =
      .ok (.needsInputOrEof gzip_start_stream)
        { state := st2, unparsed := [], inflater := infl2 } := by
  unfold GZipFile.read_loop
  simp only [hps, hc, hnee, if_false]

/-- Helper: one zip read-loop iteration whose step continues with input
left runs another iteration. -/
theorem zip_loop_cont (dstep : DStep) (fuel : Nat) (ih : InputHandler) (view : InputView)
    (st : ZState) (infl : InnerState) (n : Nat) (st2 : ZState) (infl2 : InnerState)
    (view2 : InputView) (ih2 : InputHandler)
    (hps : ZipFile.parse_step dstep st view infl = (n, st2, .cont, infl2))
    (hc : ih.consumed n = some (view2, ih2))
    (hne : view2.data.isEmpty = false) :
    ZipFile.read_loop dstep (fuel + 1) ih view st infl =
      ZipFile.read_loop dstep fuel ih2 view2 st2 infl2 := by
  conv_lhs => unfold ZipFile.read_loop
  simp only [hps, hc, hne, Bool.false_eq_true, if_false]

/-- Helper: one zip read-loop iteration tripping the consumed debug
assertion aborts the read. -/
theorem zip_loop_assert (dstep : DStep) (fuel : Nat) (ih : InputHandler) (view : InputView)
    (st : ZState) (infl : InnerState) (n : Nat) (st2 : ZState) (infl2 : InnerState)
    (res : PRes ZipError ZipFile)
    (hps : ZipFile.parse_step dstep st view infl = (n, st2, res, infl2))
    (hc : ih.consumed n = none) :
    ZipFile.read_loop dstep (fuel + 1) ih view st infl = .assertFail := by
  unfold ZipFile.read_loop
  simp only [hps, hc]

/-- C1 (code evaluated at the failing input): the two-member GZIP stream
c1Whole decodes differently depending on chunk boundaries.  Fed whole, the
peek after the first footer consumes the second member header but hands out
an Init reader that then fails on the body bytes with InvalidMemberHeader;
fed in two chunks split at the member boundary, both members decode and the
stream ends with EndOfFile.  The chunkings share the same concatenation but
do not produce the same terminal state. -/
theorem c1_chunking_dependence :
    c1Whole = c1Member ++ c1Member ∧
    GZipFile.read dstepC1 gzip_start_stream c1Whole =
      .ok (.nextFile [0xAA, 0, 0, 0, 0, 0, 0, 0, 0]
            { state := .init, unparsed := [], inflater := deflate_stream_new })
        { state := .gend mhEx 1 0, unparsed := [],
          inflater := { deflate_stream_new with comp_size := 1 } } ∧
    GZipFile.read dstepC1 gzip_start_stream [0xAA, 0, 0, 0, 0, 0, 0, 0, 0] =
      .err .invalidMemberHeader
        { state := .gerror, unparsed := [], inflater := deflate_stream_new } ∧
    GZipFile.read dstepC1 gzip_start_stream c1Member =
      .ok (.needsInputOrEof gzip_start_stream)
        { state := .gend mhEx 1 0, unparsed := [],
          inflater := { deflate_stream_new with comp_size := 1 } } ∧
    GZipFile.read dstepC1
        { state := .gend mhEx 1 0, unparsed := [],
          inflater := { deflate_stream_new with comp_size := 1 } } [] =
      .ok .endOfFile
        { state := .eof, unparsed := [],
          inflater := { deflate_stream_new with comp_size := 1 } } := by
  have hci3 : consume_input dstepC1 [0xAA, 0, 0, 0, 0, 0, 0, 0, 0] deflate_stream_new =
      (.ok (.stop [0, 0, 0, 0, 0, 0, 0, 0]), { deflate_stream_new with comp_size := 1 }) := by
    rw [consume_input_done_nil dstepC1 [0xAA, 0, 0, 0, 0, 0, 0, 0, 0] deflate_stream_new
        1 0 (by rfl) (by rfl) dsn_out_pos_ne]
    simp [dsn_fields.2.2.1, dsn_fields.2.2.2.2.1]
  have hci1 : consume_input dstepC1
      [0xAA, 0, 0, 0, 0, 0, 0, 0, 0,
       0x1f, 0x8b, 0x08, 0x00, 0, 0, 0, 0, 0x00, 0x03, 0xAA, 0, 0, 0, 0, 0, 0, 0, 0]
      deflate_stream_new =
      (.ok (.stop [0, 0, 0, 0, 0, 0, 0, 0,
        0x1f, 0x8b, 0x08, 0x00, 0, 0, 0, 0, 0x00, 0x03, 0xAA, 0, 0, 0, 0, 0, 0, 0, 0]),
       { deflate_stream_new with comp_size := 1 }) := by
    rw [consume_input_done_nil dstepC1 _ deflate_stream_new 1 0 (by rfl) (by rfl) dsn_out_pos_ne]
    simp [dsn_fields.2.2.1, dsn_fields.2.2.2.2.1]
  refine ⟨rfl, ?_, rfl, ?_, rfl⟩
  · -- whole-stream run
    have h0 : GZipFile.read dstepC1 gzip_start_stream c1Whole =
        GZipFile.read_loop dstepC1 (53 + 1)
          { orig_stored := 0, input_consumed := 0, storage := [],
            orig_input := c1Whole }
          (.long [0x1f, 0x8b, 0x08, 0x00, 0, 0, 0, 0, 0x00, 0x03, 0xAA, 0, 0, 0, 0, 0, 0, 0, 0,
                  0x1f, 0x8b, 0x08, 0x00, 0, 0, 0, 0, 0x00, 0x03, 0xAA, 0, 0, 0, 0, 0, 0, 0, 0])
          .init deflate_stream_new := rfl
    rw [h0]
    rw [gzip_loop_cont dstepC1 53 _ _ _ _ 10 (.headerParsed mhEx) deflate_stream_new
      (.long [0xAA, 0, 0, 0, 0, 0, 0, 0, 0,
        0x1f, 0x8b, 0x08, 0x00, 0, 0, 0, 0, 0x00, 0x03, 0xAA, 0, 0, 0, 0, 0, 0, 0, 0])
      { orig_stored := 0, input_consumed := 10, storage := [], orig_input := c1Whole }
      (by rfl) (by rfl) (by rfl)]
    rw [show (53 : Nat) = 52 + 1 from rfl]
    rw [gzip_loop_cont dstepC1 52 _ _ _ _ 1 (.inflated mhEx 1 0)
      { deflate_stream_new with comp_size := 1 }
      (.long [0, 0, 0, 0, 0, 0, 0, 0,
        0x1f, 0x8b, 0x08, 0x00, 0, 0, 0, 0, 0x00, 0x03, 0xAA, 0, 0, 0, 0, 0, 0, 0, 0])
      { orig_stored := 0, input_consumed := 11, storage := [], orig_input := c1Whole }
      ?h2 (by rfl) (by rfl)]
    case h2 =>
      simp only [GZipFile.parse_step, GZipFile.inflate, InputView.data, hci1,
        List.length_cons, List.length_nil, Nat.reduceAdd, Nat.reduceSub,
        dsn_fields.2.2.2.1]
    rw [show (52 : Nat) = 51 + 1 from rfl]
    rw [gzip_loop_next dstepC1 51 _ _ _ _ 18 (.gend mhEx 1 0)
      { deflate_stream_new with comp_size := 1 }
      { state := .init, unparsed := [], inflater := deflate_stream_new }
      [0xAA, 0, 0, 0, 0, 0, 0, 0, 0]
      { orig_stored := 0, input_consumed := 29, storage := [], orig_input := c1Whole }
      (by rfl) (by rfl)]
  · -- first chunk of the split run
    have h0 : GZipFile.read dstepC1 gzip_start_stream c1Member =
        GZipFile.read_loop dstepC1 (34 + 1)
          { orig_stored := 0, input_consumed := 0, storage := [],
            orig_input := c1Member }
          (.long [0x1f, 0x8b, 0x08, 0x00, 0, 0, 0, 0, 0x00, 0x03, 0xAA, 0, 0, 0, 0, 0, 0, 0, 0])
          .init deflate_stream_new := rfl
    rw [h0]
    rw [gzip_loop_cont dstepC1 34 _ _ _ _ 10 (.headerParsed mhEx) deflate_stream_new
      (.long [0xAA, 0, 0, 0, 0, 0, 0, 0, 0])
      { orig_stored := 0, input_consumed := 10, storage := [], orig_input := c1Member }
      (by rfl) (by rfl) (by rfl)]
    rw [show (34 : Nat) = 33 + 1 from rfl]
    rw [gzip_loop_cont dstepC1 33 _ _ _ _ 1 (.inflated mhEx 1 0)
      { deflate_stream_new with comp_size := 1 }
      (.long [0, 0, 0, 0, 0, 0, 0, 0])
      { orig_stored := 0, input_consumed := 11, storage := [], orig_input := c1Member }
      ?h2b (by rfl) (by rfl)]
    case h2b =>
      simp only [GZipFile.parse_step, GZipFile.inflate, InputView.data, hci3,
        List.length_cons, List.length_nil, Nat.reduceAdd, Nat.reduceSub,
        dsn_fields.2.2.2.1]
    rw [show (33 : Nat) = 32 + 1 from rfl]
    rw [gzip_loop_end dstepC1 32 _ _ _ _ 8 (.gend mhEx 1 0)
      { deflate_stream_new with comp_size := 1 }
      (.long [])
      { orig_stored := 0, input_consumed := 19, storage := [], orig_input := c1Member }
      (by rfl) (by rfl) (by simp)]


/-- Witness for C10 at the 3-byte member-header prefix 1f 8b 08 after an
all-zero footer. -/
theorem c10_witness :
    gzip_peek_stream (0x1f :: [0x8b, 0x08]) =
      .ok ([], { state := .init, unparsed := [], inflater := deflate_stream_new }) ∧
    GZipFile.read dstep_unused
        { state := .inflated mhEx 1 1, unparsed := [], inflater := deflate_stream_new }
        ([0, 0, 0, 0, 0, 0, 0, 0] ++ 0x1f :: [0x8b, 0x08]) =
      .ok (.nextFile [] { state := .init, unparsed := [], inflater := deflate_stream_new })
        { state := .gend mhEx 1 1, unparsed := [], inflater := deflate_stream_new } :=
  c10_gzip_peek_incomplete_drops_bytes dstep_unused mhEx 1 1 deflate_stream_new
    0 0 0 0 0 0 0 0 0x1f [0x8b, 0x08] rfl

/-- C8 counterexample: on a handler whose storage is empty and whose input
holds three unprocessed bytes, extend_input copies all three bytes into
storage yet returns zero, although input remained to stitch, so the return
value is neither the number of bytes added nor zero-exactly-at-exhaustion. -/
theorem c8_counterexample :
    (InputHandler.extend_input
      { orig_stored := 0, input_consumed := 0, storage := [], orig_input := [1, 2, 3] }).1
        = 0 ∧
    (InputHandler.extend_input
      { orig_stored := 0, input_consumed := 0, storage := [], orig_input := [1, 2, 3] }).2.storage
        = [1, 2, 3] :=
  ⟨rfl, rfl⟩

/-- C8 (amended): extend_input always appends exactly the next
min(80, remaining) not-yet-processed input bytes to the storage; when the
storage was non-empty beforehand the return value is the number of bytes
added, and it is zero exactly when no unprocessed input remains; when the
storage was empty the return value is zero regardless of how many bytes
were copied (the parser has already seen the whole original input, so the
visible input did not grow). -/
theorem c8_extend_protocol (ih : InputHandler) :
    (ih.extend_input).2 =
      { ih with storage := ih.storage ++
          (ih.orig_input.drop (ih.storage.length - ih.orig_stored + ih.input_consumed)).take 80 } ∧
    ((ih.orig_input.drop (ih.storage.length - ih.orig_stored + ih.input_consumed)).take 80).length
      ≤ 80 ∧
    (ih.storage.isEmpty = true → (ih.extend_input).1 = 0) ∧
    (ih.storage.isEmpty = false →
      (ih.extend_input).1 =
        ((ih.orig_input.drop (ih.storage.length - ih.orig_stored + ih.input_consumed)).take 80).length ∧
      ((ih.extend_input).1 = 0 ↔
        ih.orig_input.length ≤ ih.storage.length - ih.orig_stored + ih.input_consumed)) := by
  refine ⟨?_, ?_, ?_, ?_⟩
  · simp [InputHandler.extend_input]
  · simp
  · intro h
    simp [InputHandler.extend_input, h]
  · intro h
    constructor
    · simp [InputHandler.extend_input, h]
    · rw [show (ih.extend_input).1 =
          ((ih.orig_input.drop (ih.storage.length - ih.orig_stored + ih.input_consumed)).take 80).length
          from by simp [InputHandler.extend_input, h]]
      rw [List.length_take, List.length_drop]
      omega

/-- Witness for C8: a handler with one previously stored byte and two
unprocessed input bytes gains those two bytes and reports 2; exhaustion
would be reported as 0. -/
theorem c8_extend_protocol_witness :
    (InputHandler.extend_input
      { orig_stored := 1, input_consumed := 0, storage := [9], orig_input := [5, 6] }).1 = 2 ∧
    ((InputHandler.extend_input
      { orig_stored := 1, input_consumed := 0, storage := [9], orig_input := [5, 6] }).1 = 0 ↔
      ([5, 6] : List Nat).length ≤ ([9] : List Nat).length - 1 + 0) :=
  ⟨((c8_extend_protocol
      { orig_stored := 1, input_consumed := 0, storage := [9], orig_input := [5, 6] }).2.2.2
      rfl).1,
   ((c8_extend_protocol
      { orig_stored := 1, input_consumed := 0, storage := [9], orig_input := [5, 6] }).2.2.2
      rfl).2⟩


/-- Helper: writing inside the window keeps its length. -/
theorem writeAt_length (w : List Nat) (pos : Nat) (bs : List Nat)
    (h : pos + bs.length ≤ w.length) : (writeAt w pos bs).length = w.length := by
  simp only [writeAt, List.length_append, List.length_take, List.length_drop]
  omega

/-- Helper: a one-byte write at position zero does not fill the fresh window. -/
theorem dsn_needs_hpos :
    ¬ (deflate_stream_new.out_pos + ([7] : List Nat).length
        = (writeAt deflate_stream_new.output deflate_stream_new.out_pos [7]).length) := by
  intro h
  rw [writeAt_length deflate_stream_new.output deflate_stream_new.out_pos [7]
        (by show 0 + 1 ≤ (List.replicate TINFL_LZ_DICT_SIZE (0 : Nat)).length
            rw [List.length_replicate]; decide)] at h
  rw [show deflate_stream_new.output.length = 32768 from by
        show (List.replicate TINFL_LZ_DICT_SIZE (0 : Nat)).length = 32768
        rw [List.length_replicate]
        rfl] at h
  exact absurd h (by decide)

/-- Helper: acknowledging never changes uncomp_size. -/
theorem ack_uncomp_size (st : InnerState) : st.ack.uncomp_size = st.uncomp_size := by
  unfold InnerState.ack
  split <;> rfl

/-- Helper: after acknowledging, had_output is always clear. -/
theorem ack_had_output (st : InnerState) : st.ack.had_output = false := by
  unfold InnerState.ack
  split
  · rfl
  · simp_all

/-- C6 counterexample: a primitive step that consumes three of four input
bytes and produces one output byte alongside NeedsMoreInput makes
consume_input return NeedsInput with a non-empty unparsed tail and a
produced byte left unreported (uncomp_size grew with nothing emitted). -/
theorem c6_counterexample :
    consume_input dstepC6 [1, 2, 3, 4] deflate_stream_new =
      (.ok (.needsInput [4]), c6st2) ∧
    ([4] : List Nat) ≠ [] ∧
    c6st2.uncomp_size = deflate_stream_new.uncomp_size + 1 :=
  ⟨consume_input_needs dstepC6 [1, 2, 3, 4] deflate_stream_new 3 0 [7] rfl rfl dsn_needs_hpos,
   by decide, rfl⟩

/-- C6 (amended): when consume_input returns NeedsInput, the primitive
step reported NeedsMoreInput, the unparsed tail is the input past the
consumed count (empty only when everything was consumed), any bytes the
step produced are counted in uncomp_size but not emitted by this call
(had_output stays clear and last_out_pos does not advance past the
acknowledge point). -/
theorem c6_needs_input_semantics (dstep : DStep) (input : List Nat) (st : InnerState)
    (up : List Nat) (st2 : InnerState)
    (hres : consume_input dstep input st = (.ok (.needsInput up), st2)) :
    (dstep st.ack input).status = .needsMoreInput ∧
    up = input.drop (dstep st.ack input).in_consumed ∧
    st2.uncomp_size = st.uncomp_size + (dstep st.ack input).out.length ∧
    st2.had_output = false ∧
    st2.last_out_pos = st.ack.last_out_pos := by
  rcases hdo : dstep st.ack input with ⟨status, k, outb, dc⟩
  cases status with
  | done =>
    simp only [consume_input, hdo] at hres
    split at hres <;> simp at hres
  | hasMoreOutput =>
    simp only [consume_input, hdo] at hres
    simp at hres
  | fatal =>
    simp only [consume_input, hdo] at hres
    simp at hres
  | needsMoreInput =>
    simp only [consume_input, hdo] at hres
    rw [Prod.mk.injEq] at hres
    obtain ⟨h1, h2⟩ := hres
    have hup : up = input.drop k := by
      simpa using h1.symm
    subst h2
    refine ⟨rfl, hup, ?_, ?_, ?_⟩
    · split <;> simp [ack_uncomp_size]
    · split <;> simp [ack_had_output]
    · split <;> rfl

/-- Witness for the amended C6 theorem at the concrete C6 run. -/
theorem c6_needs_input_semantics_witness :
    (dstepC6 deflate_stream_new.ack [1, 2, 3, 4]).status = .needsMoreInput ∧
    [4] = [1, 2, 3, 4].drop (dstepC6 deflate_stream_new.ack [1, 2, 3, 4]).in_consumed ∧
    c6st2.uncomp_size = deflate_stream_new.uncomp_size +
      (dstepC6 deflate_stream_new.ack [1, 2, 3, 4]).out.length ∧
    c6st2.had_output = false ∧
    c6st2.last_out_pos = deflate_stream_new.ack.last_out_pos :=
  c6_needs_input_semantics dstepC6 [1, 2, 3, 4] deflate_stream_new [4] c6st2
    (consume_input_needs dstepC6 [1, 2, 3, 4] deflate_stream_new 3 0 [7] rfl rfl dsn_needs_hpos)


/-- C7 (code evaluated at the failing input): the consumed debug assertion
orig_stored < n is reachable from ZipFile::read.  A first call whose input
ends three bytes into the DEFLATE body makes the reader retain those bytes;
the second call stitches them with the new input into a Short view, and the
DEFLATE stream ends after consuming only two of the three stitched bytes,
so consumed(2) runs with orig_stored = 3 and the assertion trips. -/
theorem c7_consumed_assert_reachable :
    ZipFile.read dstepC7 zip_start_stream (zipLocalHeader 0 [] ++ [3, 0, 0xAA]) =
      .ok .needsInput c7zf1 ∧
    ZipFile.read dstepC7 c7zf1 [0xBB] = .assertFail := by
  constructor
  · rfl
  · have hci := consume_input_done_nil dstepC7 [3, 0, 0xAA, 0xBB] deflate_stream_new
      2 0 rfl rfl dsn_out_pos_ne
    have hps : ZipFile.parse_step dstepC7 (.headerParsed c7hdr)
        (.short [3, 0, 0xAA, 0xBB]) deflate_stream_new =
        (2, .inflated c7hdr 2 0, .cont,
         { deflate_stream_new with comp_size := 2, decomp := 0 }) := by
      simp only [ZipFile.parse_step, ZipFile.inflate, ZipFile.detect_empty_stream,
        InputView.data, c7hdr, LOCAL_FILE_HEADER_TAG, hci, List.length_cons,
        List.length_nil, dsn_fields.2.2.2.1, dsn_fields.2.2.2.2.1, Nat.reduceAdd,
        Nat.reduceSub]
      norm_num
    have h0 : ZipFile.read dstepC7 c7zf1 [0xBB] =
        ZipFile.read_loop dstepC7 20 c7ihA (.short [3, 0, 0xAA, 0xBB])
          (.headerParsed c7hdr) deflate_stream_new := rfl
    exact h0.trans (zip_loop_assert dstepC7 19 c7ihA (.short [3, 0, 0xAA, 0xBB])
      (.headerParsed c7hdr) deflate_stream_new 2 (.inflated c7hdr 2 0)
      { deflate_stream_new with comp_size := 2, decomp := 0 } .cont hps (by rfl))

end StreamZipper
